import Mathlib

/-!
# Bookstore REST backend: query construction and authorisation

A shallow embedding of the request handlers of `server.js`.  Each handler is a
pure function from the request (and, where it touches the store, the store
state) to what the handler does: the response it sends, the statements it
issues, the new store state.

Conventions of the embedding:

* a JavaScript value that may be `undefined` is an `Option`;
* JavaScript strings are `String`, processed through their character list;
* JavaScript numbers are doubles, `JsNumber`: a finite value is a dyadic fraction,
  and parsing and arithmetic round to the nearest double, ties to even;
* the order that the store gives to rows with equal sort keys is a parameter;
* the external libraries (`jsonwebtoken`, `pg-promise`) are modelled by their
  documented behaviour, the token verifier and the raw store runner being
  parameters where nothing more is needed.
-/

namespace Bookstore

/-! ## JavaScript string primitives -/

/-- The space character, the separator of `authHeader.split(' ')`. -/
def space : Char := Char.ofNat 32

/-- Model of `String.prototype.split(' ')` on a character list: the fields between
successive spaces, empty fields included; the empty string gives one empty
field. -/
def splitOnSpace : List Char → List (List Char)
  | [] => [[]]
  | c :: cs =>
    if c = space then [] :: splitOnSpace cs
    else
      match splitOnSpace cs with
      | [] => [[c]]
      | f :: fs => (c :: f) :: fs

/-! ## Authorisation gate (`authenticateToken`) -/

/-- Decoded payload of a session token, as `jwt.sign` builds it at login. -/
structure Claim where
  id : Int
  role : String
deriving DecidableEq, Repr

/-- Effects of the middleware that the outside can observe, in order. -/
inductive AuthEvent where
  | verifyCalled (token : String)
  | errorLogged (err : String)
  | statusSent (code : Nat)
  | nextCalled
deriving DecidableEq, Repr

/-- The part of the request the middleware reads and writes:
`req.headers['authorization']` and `req.user`. -/
structure AuthRequest where
  authorization : Option String
  user : Option Claim
deriving DecidableEq, Repr

/-- The expression `authHeader && authHeader.split(' ')[1]`: a falsy header
(`undefined` or the empty string) is returned as it is, otherwise the field at
index 1 of the split, `undefined` when there is none. -/
def extractToken (authHeader : Option String) : Option String :=
  match authHeader with
  | none => none
  | some h =>
    if h = "" then some ""
    else (splitOnSpace h.data)[1]?.map String.mk

/-- The test `!token`: `undefined` and the empty string are falsy. -/
def tokenMissing (token : Option String) : Bool :=
  match token with
  | none => true
  | some t => t == ""

/-- The middleware `authenticateToken`.  `jwtVerify token` stands for
`jwt.verify(token, process.env.JWT_SECRET, callback)`: `.error err` when the
callback receives an error, `.ok user` when it receives the decoded payload. -/
def authenticateToken (jwtVerify : String → Except String Claim) (req : AuthRequest) :
    AuthRequest × List AuthEvent :=
  let token := extractToken req.authorization
  if tokenMissing token then (req, [.statusSent 401])
  else
    let t := token.getD ""
    match jwtVerify t with
    | .error err => (req, [.verifyCalled t, .errorLogged err, .statusSent 403])
    | .ok user => ({ req with user := some user }, [.verifyCalled t, .nextCalled])

/-- A sample verifier for concrete evaluations: it accepts the one token
`good` and decodes it to the claim of user 7; every other token fails. -/
def sampleVerify (token : String) : Except String Claim :=
  if token = "good" then .ok { id := 7, role := "user" } else .error "invalid signature"

/-! ## The store client (`pg-promise`) and the tables -/

/-- Result check of `db.oneOrNone`: no row resolves with `null`, one row with that
row, more than one row rejects. -/
def oneOrNone {α : Type} (rows : List α) : Except String (Option α) :=
  match rows with
  | [] => .ok none
  | [r] => .ok (some r)
  | _ :: _ :: _ => .error "Multiple rows were not expected."

/-- Result check of `db.one`: exactly one row resolves with it, anything else
rejects. -/
def one {α : Type} (rows : List α) : Except String α :=
  match rows with
  | [] => .error "No data returned from the query."
  | [r] => .ok r
  | _ :: _ :: _ => .error "Multiple rows were not expected."

/-- SQL `column = $n` on nullable text: true only for two equal non-null values. -/
def sqlEq (column param : Option String) : Bool :=
  match column, param with
  | some a, some b => a == b
  | _, _ => false

/-- A row of table `userz`. -/
structure User where
  id : Int
  username : Option String
  email : Option String
  password : Option String
  role : Option String
  profile_pic_url : Option String
deriving DecidableEq, Repr

/-- A row of table `reviews`; `created_at` is the timestamp as a number. -/
structure Review where
  review_id : Int
  book_id : Int
  user_id : Int
  content : Option String
  created_at : Int
  likes : Int
deriving DecidableEq, Repr

/-- A JSON value of a request body, after `bodyParser.json()`; `undefined` is what
reading a missing property gives.  A number is its decimal literal
`mantissa * 10 ^ exp10`; the field list of an object has distinct keys. -/
inductive JsVal where
  | undefined
  | null
  | bool (b : Bool)
  | num (mantissa : Int) (exp10 : Int)
  | str (s : String)
  | arr (items : List JsVal)
  | obj (fields : List (String × JsVal))
deriving Repr

/-- A row of table `books`, as the values bound by the insert statements. -/
structure BookRow where
  isbn : JsVal
  title : JsVal
  author : JsVal
  genre : JsVal
  price : JsVal
  image_url : JsVal
  description : JsVal
  username : JsVal
deriving Repr

/-- State of the relational store: the three tables and the `userz` id sequence. -/
structure Store where
  userz : List User
  userz_id_seq : Int
  books : List BookRow
  reviews : List Review
deriving Repr

/-- A row of the result of the review page statement: the selected columns of
`reviews` and of the joined `userz` row. -/
structure ReviewRow where
  review_id : Int
  content : Option String
  created_at : Int
  username : Option String
  profile_pic_url : Option String
  likes : Int
deriving DecidableEq, Repr

/-- JSON body of a response, one constructor per shape the handlers send. -/
inductive Body where
  | error (message : String)
  | message (text : String)
  | success
  | user (row : User)
  | books (rows : List BookRow)
  | reviews (reviews : List ReviewRow) (totalReviews : Nat)
deriving Repr

/-- An HTTP response: `res.status(status).json(body)`. -/
structure Response where
  status : Nat
  body : Body
deriving Repr

/-! ## Registration (`POST /api/register`) -/

/-- The fields the handler destructures from `req.body`; a missing field is
`undefined`, which the store client binds as `null`. -/
structure RegisterBody where
  username : Option String
  email : Option String
  password : Option String
deriving DecidableEq, Repr

/-- The fixed list of privileged user names. -/
def adminUsernames : List String := ["Admin1", "Admin2", "Admin3"]

/-- The statement `SELECT * FROM userz WHERE username = $1 OR email = $2`. -/
def selectUserByNameOrEmail (users : List User) (username email : Option String) :
    List User :=
  users.filter (fun u => sqlEq u.username username || sqlEq u.email email)

/-- The expression `adminUsernames.includes(username) ? 'admin' : 'user'`. -/
def roleFor (username : Option String) : String :=
  match username with
  | some name => if name ∈ adminUsernames then "admin" else "user"
  | none => "user"

/-- The statement `INSERT INTO userz (username, email, password, role) VALUES
($1, $2, $3, $4) RETURNING *`: the new row takes the next value of the id
sequence and no profile picture; the returned rows are the one new row.  The
table's constraints are not part of the source and the insert is taken to pass
them. -/
def insertUser (s : Store) (username email password : Option String) (role : String) :
    Store × List User :=
  let row : User :=
    { id := s.userz_id_seq + 1, username := username, email := email,
      password := password, role := some role, profile_pic_url := none }
  ({ s with userz := s.userz ++ [row], userz_id_seq := s.userz_id_seq + 1 }, [row])

/-- The handler of `POST /api/register`: the store after the request and the
response sent. -/
def register (s : Store) (body : RegisterBody) : Store × Response :=
  match oneOrNone (selectUserByNameOrEmail s.userz body.username body.email) with
  | .error err => (s, ⟨500, .error err⟩)
  | .ok (some _) => (s, ⟨400, .error "Username or email already in use"⟩)
  | .ok none =>
    let role := roleFor body.username
    let (s1, rows) := insertUser s body.username body.email body.password role
    match one rows with
    | .error err => (s1, ⟨500, .error err⟩)
    | .ok newUser => (s1, ⟨201, .user newUser⟩)

/-- A store with two users, each with a user name and an email of its own. -/
def twoUserStore : Store :=
  { userz :=
      [ { id := 1, username := some "alice", email := some "alice@example.org",
          password := some "pw1", role := some "user", profile_pic_url := none },
        { id := 2, username := some "bob", email := some "bob@example.org",
          password := some "pw2", role := some "user", profile_pic_url := none } ],
    userz_id_seq := 2, books := [], reviews := [] }

/-- A registration that takes the first user's name and the second user's email. -/
def crossCollision : RegisterBody :=
  { username := some "alice", email := some "bob@example.org", password := some "pw3" }

/-! ## Bulk insert (`POST /api/books/bulk`) -/

/-- JavaScript truthiness of a JSON value.  A number is falsy when its double is
zero: when the mantissa is zero, or the literal is so small that it rounds to
zero (at most `2 ^ (-1075)` in magnitude). -/
def JsVal.truthy : JsVal → Bool
  | .undefined => false
  | .null => false
  | .bool b => b
  | .num m e => m != 0 && (decide (0 ≤ e) || decide (10 ^ (-e).toNat < m.natAbs * 2 ^ 1075))
  | .str s => s != ""
  | .arr _ => true
  | .obj _ => true

/-- The property read `v.key` for the keys the handlers use: it throws a
`TypeError` on `null` and `undefined`, gives the field of an object or
`undefined` when the object has none, and `undefined` on every other value. -/
def JsVal.getProp (v : JsVal) (key : String) : Except String JsVal :=
  match v with
  | .undefined =>
    .error ("TypeError: Cannot read properties of undefined (reading \x27" ++ key ++ "\x27)")
  | .null =>
    .error ("TypeError: Cannot read properties of null (reading \x27" ++ key ++ "\x27)")
  | .obj fields => .ok ((fields.lookup key).getD .undefined)
  | _ => .ok .undefined

/-- How a handler run ends: with a response, or with an exception thrown outside
every `try` block, in which case the handler sends nothing. -/
inductive Completion where
  | responded (r : Response)
  | threw (err : String)
deriving Repr

/-- The test `!book.isbn || !book.title || !book.price` of the validation loop,
evaluated left to right. -/
def bookIncomplete (book : JsVal) : Except String Bool :=
  match book.getProp "isbn" with
  | .error e => .error e
  | .ok isbn =>
    if !isbn.truthy then .ok true
    else
      match book.getProp "title" with
      | .error e => .error e
      | .ok title =>
        if !title.truthy then .ok true
        else
          match book.getProp "price" with
          | .error e => .error e
          | .ok price => .ok (!price.truthy)

/-- The validation loop over the array: `.ok false` when it returns the 400
response at some element, `.ok true` when it runs to the end, `.error` when a
property read throws. -/
def validateBooks : List JsVal → Except String Bool
  | [] => .ok true
  | book :: rest =>
    match bookIncomplete book with
    | .error e => .error e
    | .ok true => .ok false
    | .ok false => validateBooks rest

/-- The parameter list of one insert statement of the transaction. -/
def bookRowOf (book username : JsVal) : Except String BookRow :=
  match book.getProp "isbn", book.getProp "title", book.getProp "author",
    book.getProp "genre", book.getProp "price", book.getProp "image_url",
    book.getProp "description" with
  | .ok isbn, .ok title, .ok author, .ok genre, .ok price, .ok image_url, .ok description =>
    .ok { isbn := isbn, title := title, author := author, genre := genre, price := price,
          image_url := image_url, description := description, username := username }
  | .error e, _, _, _, _, _, _ => .error e
  | _, .error e, _, _, _, _, _ => .error e
  | _, _, .error e, _, _, _, _ => .error e
  | _, _, _, .error e, _, _, _ => .error e
  | _, _, _, _, .error e, _, _ => .error e
  | _, _, _, _, _, .error e, _ => .error e
  | _, _, _, _, _, _, .error e => .error e

/-- The loop inside `db.tx`: one insert per element.  `accepts table row` says
whether the store takes `row` into `table` (its constraints are not part of the
source).  The result is the table reached, the insert statements issued, and the
error that stopped the loop, if any. -/
def runInserts (accepts : List BookRow → BookRow → Bool) (username : JsVal) :
    List JsVal → List BookRow → List BookRow → List BookRow × List BookRow × Option String
  | [], table, issued => (table, issued, none)
  | book :: rest, table, issued =>
    match bookRowOf book username with
    | .error e => (table, issued, some e)
    | .ok row =>
      if accepts table row then
        runInserts accepts username rest (table ++ [row]) (issued ++ [row])
      else (table, issued ++ [row], some "insert rejected by the store")

/-- The expression `req.user ? req.user.username : 'Admin'`. -/
def bulkUsername (reqUser : JsVal) : JsVal :=
  if reqUser.truthy then
    match reqUser.getProp "username" with
    | .ok v => v
    | .error _ => .undefined
  else .str "Admin"

/-- What a run of the bulk handler does: the store after it, how it ends, and the
insert statements it issued. -/
structure BulkResult where
  store : Store
  completion : Completion
  inserts : List BookRow
deriving Repr

/-- The handler of `POST /api/books/bulk`.  A transaction that fails is rolled
back: the store is the one before the request. -/
def addBooksBulk (accepts : List BookRow → BookRow → Bool) (s : Store) (reqUser : JsVal)
    (body : JsVal) : BulkResult :=
  let username := bulkUsername reqUser
  match body with
  | .arr books =>
    match validateBooks books with
    | .error e => ⟨s, .threw e, []⟩
    | .ok false =>
      ⟨s, .responded ⟨400, .error "Each book must have an ISBN, title, and price"⟩, []⟩
    | .ok true =>
      match runInserts accepts username books s.books [] with
      | (_, issued, some e) => ⟨s, .responded ⟨500, .error e⟩, issued⟩
      | (table, issued, none) =>
        ⟨{ s with books := table }, .responded ⟨201, .message "Books added successfully"⟩,
          issued⟩
  | _ => ⟨s, .responded ⟨400, .error "Invalid input: Expected an array of books"⟩, []⟩

/-- The field `key` of an array element as the claim speaks of it: the value of
that key in an object, `undefined` when the element has no such field. -/
def fieldOf (book : JsVal) (key : String) : JsVal :=
  match book with
  | .obj fields => (fields.lookup key).getD .undefined
  | _ => .undefined

/-- The store with no rows. -/
def emptyStore : Store := { userz := [], userz_id_seq := 0, books := [], reviews := [] }

/-! ## JavaScript numbers -/

/-- The characters `parseInt` and `parseFloat` skip at the start of their input:
the white space and line terminator code points of ECMAScript. -/
def isJsWhiteSpace (c : Char) : Bool :=
  c.toNat ∈ [0x09, 0x0A, 0x0B, 0x0C, 0x0D, 0x20, 0xA0, 0x1680, 0x2000, 0x2001, 0x2002,
    0x2003, 0x2004, 0x2005, 0x2006, 0x2007, 0x2008, 0x2009, 0x200A, 0x2028, 0x2029,
    0x202F, 0x205F, 0x3000, 0xFEFF]

/-- A decimal digit `0` to `9`. -/
def isDecimalDigit (c : Char) : Bool := 48 ≤ c.toNat && c.toNat ≤ 57

/-- A JavaScript number, that is a double: `NaN`, an infinity with its sign, or
the finite value `numerator / 2 ^ shift`, written with `shift = 0` or an odd
numerator so that every value has one form.  The two zeros are not told apart
(both print as `0`). -/
inductive JsNumber where
  | nan
  | infinity (negative : Bool)
  | finite (numerator : Int) (shift : Nat)
deriving DecidableEq, Repr

/-- A numeric literal of the source, such as the `1` of `pageNumber - 1`. -/
instance (n : Nat) : OfNat JsNumber n := ⟨.finite n 0⟩

/-- The position of the highest set bit of `n` (0 for `n < 2`), computed by at
most `fuel` halvings. -/
def log2Fuel : Nat → Nat → Nat
  | 0, _ => 0
  | fuel + 1, n => if n < 2 then 0 else log2Fuel fuel (n / 2) + 1

/-- The integer `e` with `2 ^ e ≤ p / d < 2 ^ (e + 1)`, for positive `p` and `d`. -/
def floorLog2 (p d : Nat) : Int :=
  if 0 ≤ (log2Fuel p p : Int) - (log2Fuel d d : Int) then
    (if d * 2 ^ ((log2Fuel p p : Int) - (log2Fuel d d : Int)).toNat ≤ p then
      (log2Fuel p p : Int) - (log2Fuel d d : Int)
    else (log2Fuel p p : Int) - (log2Fuel d d : Int) - 1)
  else
    (if d ≤ p * 2 ^ ((log2Fuel d d : Int) - (log2Fuel p p : Int)).toNat then
      (log2Fuel p p : Int) - (log2Fuel d d : Int)
    else (log2Fuel p p : Int) - (log2Fuel d d : Int) - 1)

/-- The integer nearest to `n / d`, the even one of the two when `n / d` lies
half way. -/
def roundHalfEven (n d : Nat) : Nat :=
  if d < 2 * (n % d) ∨ (2 * (n % d) = d ∧ (n / d) % 2 = 1) then n / d + 1 else n / d

/-- The form of `m / 2 ^ k` with `k = 0` or `m` odd. -/
def reduceDyadic : Nat → Nat → Nat × Nat
  | m, 0 => (m, 0)
  | m, k + 1 => if m % 2 = 0 then reduceDyadic (m / 2) k else (m, k + 1)

/-- The integer `n` with a sign. -/
def signed (negative : Bool) (n : Nat) : Int := if negative then -(n : Int) else (n : Int)

/-- The double nearest to `p / d` (with the given sign), ties to the even
mantissa: the mantissa has 53 bits, the exponent of its last bit is at least
`-1074`, and a value that rounds to `2 ^ 1024` or more is an infinity. -/
def nearestDouble (negative : Bool) (p d : Nat) : JsNumber :=
  if p = 0 then .finite 0 0
  else if 1024 < (log2Fuel p p : Int) - (log2Fuel d d : Int) then .infinity negative
  else
    let e2 : Int := max (floorLog2 p d - 52) (-1074)
    if 0 ≤ e2 then
      if 971 < e2 ∨ (e2 = 971 ∧ roundHalfEven p (d * 2 ^ e2.toNat) = 2 ^ 53) then
        .infinity negative
      else .finite (signed negative (roundHalfEven p (d * 2 ^ e2.toNat) * 2 ^ e2.toNat)) 0
    else
      .finite
        (signed negative (reduceDyadic (roundHalfEven (p * 2 ^ (-e2).toNat) d) (-e2).toNat).1)
        (reduceDyadic (roundHalfEven (p * 2 ^ (-e2).toNat) d) (-e2).toNat).2

/-- The number value of the real number `p / d` with the given sign: the nearest
double.  An integer of magnitude at most `2 ^ 53` is a double itself. -/
def roundFraction (negative : Bool) (p d : Nat) : JsNumber :=
  if d = 1 ∧ p ≤ 2 ^ 53 then .finite (signed negative p) 0 else nearestDouble negative p d

/-- The operator `-` on numbers: the exact difference, rounded. -/
def jsSub : JsNumber → JsNumber → JsNumber
  | .nan, _ => .nan
  | _, .nan => .nan
  | .infinity s, .infinity t => if s = t then .nan else .infinity s
  | .infinity s, .finite _ _ => .infinity s
  | .finite _ _, .infinity t => .infinity (!t)
  | .finite a j, .finite b k =>
    roundFraction (decide (a * 2 ^ k - b * 2 ^ j < 0)) (a * 2 ^ k - b * 2 ^ j).natAbs
      (2 ^ (j + k))

/-- The operator `*` on numbers: the exact product, rounded. -/
def jsMul : JsNumber → JsNumber → JsNumber
  | .nan, _ => .nan
  | _, .nan => .nan
  | .infinity s, .infinity t => .infinity (s != t)
  | .infinity s, .finite b _ => if b = 0 then .nan else .infinity (s != decide (b < 0))
  | .finite a _, .infinity t => if a = 0 then .nan else .infinity (decide (a < 0) != t)
  | .finite a j, .finite b k =>
    roundFraction (decide (a * b < 0)) (a * b).natAbs (2 ^ (j + k))

/-- The value in base 10 of a run of decimal digits. -/
def digitsValue (ds : List Char) : Nat :=
  ds.foldl (fun acc c => 10 * acc + (c.toNat - 48)) 0

/-- The integer that `parseInt` makes of the digits it has read: `NaN` when there
is none, else their value as a number. -/
def integerOfDigits (negative : Bool) (ds : List Char) : JsNumber :=
  if ds = [] then .nan else roundFraction negative (digitsValue ds) 1

/-- Model of `parseInt(input, 10)`: leading white space is skipped, one sign is
read, then the longest run of decimal digits; `NaN` when there is no digit. -/
def parseInt (input : String) : JsNumber :=
  match input.data.dropWhile isJsWhiteSpace with
  | [] => .nan
  | c :: rest =>
    if c = '-' then integerOfDigits true (rest.takeWhile isDecimalDigit)
    else if c = '+' then integerOfDigits false (rest.takeWhile isDecimalDigit)
    else integerOfDigits false ((c :: rest).takeWhile isDecimalDigit)

/-- The function `isNaN` on a number. -/
def isNaN (n : JsNumber) : Bool :=
  match n with
  | .nan => true
  | _ => false

/-- The value of the exponent part (`e`, optional sign, digits) at the start of
the input; 0 when the input does not start with a complete one. -/
def exponentValue (cs : List Char) : Int :=
  match cs with
  | [] => 0
  | e :: rest =>
    if e = 'e' ∨ e = 'E' then
      match rest with
      | [] => 0
      | sign :: rest2 =>
        if sign = '-' then -(digitsValue (rest2.takeWhile isDecimalDigit) : Int)
        else if sign = '+' then (digitsValue (rest2.takeWhile isDecimalDigit) : Int)
        else (digitsValue (rest.takeWhile isDecimalDigit) : Int)
    else 0

/-- An unsigned decimal literal as `parseFloat` reads it: `Infinity`, or the
digits before and after the point with the value of the exponent part. -/
inductive UnsignedLiteral where
  | infinity
  | decimal (intDigits fracDigits : List Char) (exponent : Int)
deriving DecidableEq, Repr

/-- The longest unsigned decimal literal at the start of the input (`Infinity`,
digits with optional fraction and exponent, or a fraction alone), if any. -/
def unsignedDecimalLiteral (cs : List Char) : Option UnsignedLiteral :=
  if "Infinity".data.isPrefixOf cs then some .infinity
  else
    match cs.dropWhile isDecimalDigit with
    | '.' :: afterDot =>
      if cs.takeWhile isDecimalDigit = [] ∧ afterDot.takeWhile isDecimalDigit = [] then none
      else
        some (.decimal (cs.takeWhile isDecimalDigit) (afterDot.takeWhile isDecimalDigit)
          (exponentValue (afterDot.dropWhile isDecimalDigit)))
    | rest =>
      if cs.takeWhile isDecimalDigit = [] then none
      else some (.decimal (cs.takeWhile isDecimalDigit) [] (exponentValue rest))

/-- The number value of the decimal literal with the given digits and exponent:
the digits read as one integer, times 10 to the exponent less the number of
fraction digits, rounded. -/
def decimalToNumber (negative : Bool) (intDigits fracDigits : List Char) (exponent : Int) :
    JsNumber :=
  if 0 ≤ exponent - fracDigits.length then
    roundFraction negative
      (digitsValue (intDigits ++ fracDigits) * 10 ^ (exponent - fracDigits.length).toNat) 1
  else
    roundFraction negative (digitsValue (intDigits ++ fracDigits))
      (10 ^ (fracDigits.length - exponent).toNat)

/-- The number value of a literal with a sign. -/
def literalValue (negative : Bool) (l : UnsignedLiteral) : JsNumber :=
  match l with
  | .infinity => .infinity negative
  | .decimal intDigits fracDigits exponent =>
    decimalToNumber negative intDigits fracDigits exponent

/-- Model of `parseFloat`: leading white space is skipped, then the longest
optionally signed decimal literal is taken and its number value returned; `NaN`
when there is none. -/
def parseFloat (input : String) : JsNumber :=
  match input.data.dropWhile isJsWhiteSpace with
  | [] => .nan
  | c :: rest =>
    if c = '-' then
      match unsignedDecimalLiteral rest with
      | none => .nan
      | some l => literalValue true l
    else if c = '+' then
      match unsignedDecimalLiteral rest with
      | none => .nan
      | some l => literalValue false l
    else
      match unsignedDecimalLiteral (c :: rest) with
      | none => .nan
      | some l => literalValue false l

/-! ## Query construction (`/api/search`, `/api/advanced-search`, `/api/filter`) -/

/-- A value of `req.query`: a string, or an array or object (from a repeated key
or bracket syntax), which is truthy whatever it holds and is kept with the text
that string conversion gives it. -/
inductive QVal where
  | str (s : String)
  | other (rendered : String)
deriving DecidableEq, Repr

/-- Truthiness of a query value that may be `undefined`: the test `if (genre)`. -/
def truthy (v : Option QVal) : Bool :=
  match v with
  | none => false
  | some (.str s) => s != ""
  | some (.other _) => true

/-- String conversion of a query value, as a template literal or `parseFloat`
applies it. -/
def render (v : Option QVal) : String :=
  match v with
  | none => "undefined"
  | some (.str s) => s
  | some (.other rendered) => rendered

/-- A value of the bound-parameter list handed to `db.any`. -/
inductive Param where
  | raw (v : Option QVal)
  | text (s : String)
  | num (n : JsNumber)
deriving DecidableEq, Repr

/-- The statement under construction: its text and its parameter list. -/
abbrev Statement := String × List Param

/-- The pattern of one conditional block of the builders: when the criterion is
truthy, append the clause, whose text may use the current length of the
parameter list, and push the value. -/
def addClause (st : Statement) (criterion : Option QVal) (clause : Nat → String)
    (value : Param) : Statement :=
  if truthy criterion then (st.1 ++ clause st.2.length, st.2 ++ [value]) else st

/-- The text of a placeholder `$n`. -/
def placeholder (n : Nat) : String := "$" ++ toString n

/-- The query parameters of `GET /api/search`. -/
structure SearchQuery where
  query : Option QVal
  genre : Option QVal
  author : Option QVal
  minPrice : Option QVal
  maxPrice : Option QVal
deriving DecidableEq, Repr

/-- The statement that the handler of `GET /api/search` builds. -/
def buildSearch (q : SearchQuery) : Statement :=
  let st : Statement := ("SELECT * FROM books WHERE 1=1", [])
  let st := addClause st q.query
    (fun _ => " AND (title ILIKE $1 OR author ILIKE $1 OR genre ILIKE $1)")
    (.text ("%" ++ render q.query ++ "%"))
  let st := addClause st q.genre (fun n => " AND genre = " ++ placeholder (n + 1))
    (.raw q.genre)
  let st := addClause st q.author (fun n => " AND author ILIKE " ++ placeholder (n + 1))
    (.text ("%" ++ render q.author ++ "%"))
  let st := addClause st q.minPrice (fun n => " AND price >= " ++ placeholder (n + 1))
    (.num (parseFloat (render q.minPrice)))
  addClause st q.maxPrice (fun n => " AND price <= " ++ placeholder (n + 1))
    (.num (parseFloat (render q.maxPrice)))

/-- The query parameters of `GET /api/advanced-search`. -/
structure AdvancedQuery where
  title : Option QVal
  author : Option QVal
  genre : Option QVal
  minPrice : Option QVal
  maxPrice : Option QVal
deriving DecidableEq, Repr

/-- The statement that the handler of `GET /api/advanced-search` builds. -/
def buildAdvancedSearch (q : AdvancedQuery) : Statement :=
  let st : Statement := ("SELECT * FROM books WHERE 1=1", [])
  let st := addClause st q.title (fun n => " AND title ILIKE " ++ placeholder (n + 1))
    (.text ("%" ++ render q.title ++ "%"))
  let st := addClause st q.author (fun n => " AND author ILIKE " ++ placeholder (n + 1))
    (.text ("%" ++ render q.author ++ "%"))
  let st := addClause st q.genre (fun n => " AND genre ILIKE " ++ placeholder (n + 1))
    (.text ("%" ++ render q.genre ++ "%"))
  let st := addClause st q.minPrice (fun n => " AND price >= " ++ placeholder (n + 1))
    (.num (parseFloat (render q.minPrice)))
  addClause st q.maxPrice (fun n => " AND price <= " ++ placeholder (n + 1))
    (.num (parseFloat (render q.maxPrice)))

/-- The query parameters of `GET /api/filter`. -/
structure FilterQuery where
  genre : Option QVal
  author : Option QVal
  minPrice : Option QVal
  maxPrice : Option QVal
deriving DecidableEq, Repr

/-- The statement that the handler of `GET /api/filter` builds; its first two
clauses carry the literal placeholders `$1` and `$2`. -/
def buildFilter (q : FilterQuery) : Statement :=
  let st : Statement := ("SELECT * FROM books WHERE 1=1", [])
  let st := addClause st q.genre (fun _ => " AND $1 = ANY(genre)") (.raw q.genre)
  let st := addClause st q.author (fun _ => " AND $2 = ANY(author)") (.raw q.author)
  let st := addClause st q.minPrice (fun n => " AND price >= " ++ placeholder (n + 1))
    (.num (parseFloat (render q.minPrice)))
  addClause st q.maxPrice (fun n => " AND price <= " ++ placeholder (n + 1))
    (.num (parseFloat (render q.maxPrice)))

/-- What a run of a query handler does: the statements it sends to the store,
in order, and the response. -/
structure QueryRun where
  sent : List Statement
  response : Response
deriving Repr

/-- The `try` block shared by the three handlers: send the statement with
`db.any`, answer with the rows (status 200) or, when the store rejects, with
status 500.  `dbAny` is the store; `present` turns the rows into the body
(the identity for the two search handlers, the per-row formatting for the
filter handler, which may throw inside the `try`). -/
def runQuery (dbAny : String → List Param → Except String (List BookRow))
    (present : List BookRow → Except String Body) (st : Statement) : QueryRun :=
  match dbAny st.1 st.2 with
  | .error e => ⟨[st], ⟨500, .error e⟩⟩
  | .ok rows =>
    match present rows with
    | .error e => ⟨[st], ⟨500, .error e⟩⟩
    | .ok body => ⟨[st], ⟨200, body⟩⟩

/-- The handler of `GET /api/search`. -/
def searchBooks (dbAny : String → List Param → Except String (List BookRow))
    (q : SearchQuery) : QueryRun :=
  runQuery dbAny (fun rows => .ok (.books rows)) (buildSearch q)

/-- The handler of `GET /api/advanced-search`. -/
def advancedSearch (dbAny : String → List Param → Except String (List BookRow))
    (q : AdvancedQuery) : QueryRun :=
  runQuery dbAny (fun rows => .ok (.books rows)) (buildAdvancedSearch q)

/-- The handler of `GET /api/filter`.  `formatBooks` is the `books.map` that joins
the author and genre arrays and prints the price with two decimals. -/
def filterBooks (dbAny : String → List Param → Except String (List BookRow))
    (formatBooks : List BookRow → Except String Body) (q : FilterQuery) : QueryRun :=
  runQuery dbAny formatBooks (buildFilter q)

/-- The numbers of the placeholders `$n` of a statement text, in order of
occurrence.  The state is `none` outside a placeholder, `some none` right after
a `$`, and `some (some n)` while the digits of `$n` are read. -/
def scanPlaceholders : List Char → Option (Option Nat) → List Nat
  | [], some (some n) => [n]
  | [], _ => []
  | c :: cs, state =>
    if isDecimalDigit c then
      match state with
      | none => scanPlaceholders cs none
      | some none => scanPlaceholders cs (some (some (c.toNat - 48)))
      | some (some n) => scanPlaceholders cs (some (some (10 * n + (c.toNat - 48))))
    else
      (match state with
        | some (some n) => [n]
        | _ => []) ++ scanPlaceholders cs (if c = '$' then some none else none)

/-- The placeholder numbers of a statement text. -/
def placeholdersOf (text : String) : List Nat := scanPlaceholders text.data none

/-- A store client that answers every statement with no rows. -/
def noRows (_ : String) (_ : List Param) : Except String (List BookRow) := .ok []

/-! ## Reviews (`GET /api/books/:id/reviews`, `POST /api/reviews/:review_id/like`) -/

/-- The query parameters of `GET /api/books/:id/reviews`. -/
structure ReviewsQuery where
  page : Option QVal
  limit : Option QVal
deriving DecidableEq, Repr

/-- The text `parseInt` reads for a parameter with a numeric default: the string
conversion of the default when the parameter is `undefined`, else of the
parameter. -/
def textOrDefault (v : Option QVal) (dflt : Nat) : String :=
  match v with
  | none => toString dflt
  | some w => render (some w)

/-- The statements of the review handlers, with their bound parameters:
`selectPage book_id limit offset` is

  SELECT r.review_id, r.content, r.created_at, u.username, u.profile_pic_url, r.likes
  FROM reviews r JOIN userz u ON r.user_id = u.id
  WHERE r.book_id = $1 ORDER BY r.created_at DESC LIMIT $2 OFFSET $3

`countReviews book_id` is `SELECT COUNT(*) as count FROM reviews WHERE book_id = $1`,
and `likeUpdate review_id` is
`UPDATE reviews SET likes = likes + 1 WHERE review_id = $1`. -/
inductive ReviewStatement where
  | selectPage (book_id : Int) (limit : JsNumber) (offset : JsNumber)
  | countReviews (book_id : Int)
  | likeUpdate (review_id : JsNumber)
deriving DecidableEq, Repr

/-- The join `reviews r JOIN userz u ON r.user_id = u.id`. -/
def joinReviewsUsers (s : Store) : List (Review × User) :=
  s.reviews.flatMap (fun r => (s.userz.filter (fun u => r.user_id = u.id)).map (fun u => (r, u)))

/-- The select list of the page statement. -/
def reviewRow (r : Review) (u : User) : ReviewRow :=
  { review_id := r.review_id, content := r.content, created_at := r.created_at,
    username := u.username, profile_pic_url := u.profile_pic_url, likes := r.likes }

/-- The row count that the store reads from a number bound at `LIMIT` or
`OFFSET`: the number itself when it is an integer from 0 to `2 ^ 63 - 1`.  The
store rejects every other number: a negative one, one outside `bigint`, an
infinity or `NaN`.  (A finite number that is no integer does not arise:
`parseInt` gives integers, and so do their differences and products.) -/
def rowCount (n : JsNumber) : Option Nat :=
  match n with
  | .finite v 0 => if 0 ≤ v ∧ v < 2 ^ 63 then some v.toNat else none
  | _ => none

/-- What `ORDER BY r.created_at DESC` asks of the store: the rows it returns are
the rows it was given, latest first.  The order of rows with equal times is the
store's choice. -/
def OrdersByCreatedAtDesc (orderBy : List (Review × User) → List (Review × User)) : Prop :=
  ∀ rows, (orderBy rows).Perm rows ∧
    (orderBy rows).Pairwise (fun a b => b.1.created_at ≤ a.1.created_at)

/-- One store ordering for concrete evaluations: a stable sort, which keeps rows
with equal times in table order. -/
def stableOrder (rows : List (Review × User)) : List (Review × User) :=
  rows.insertionSort (fun a b => b.1.created_at ≤ a.1.created_at)

/-- The store's answer to the page statement: join, filter on the book, order by
creation time descending (`orderBy` is the store's sort), skip `offset` rows,
keep `limit` rows.  The store rejects a `LIMIT` or `OFFSET` that is no row
count. -/
def selectReviewsPage (orderBy : List (Review × User) → List (Review × User)) (s : Store)
    (book_id : Int) (limit offset : JsNumber) : Except String (List ReviewRow) :=
  match rowCount limit, rowCount offset with
  | some l, some o =>
    .ok ((((orderBy ((joinReviewsUsers s).filter (fun p => p.1.book_id = book_id))).drop
      o).take l).map (fun p => reviewRow p.1 p.2))
  | _, _ => .error "LIMIT or OFFSET rejected by the store"

/-- The store's answer to the count statement. -/
def countReviews (s : Store) (book_id : Int) : Nat :=
  (s.reviews.filter (fun r => r.book_id = book_id)).length

/-- What a run of a review handler does: the statements it sends, in order, and
the response. -/
structure ReviewsRun where
  sent : List ReviewStatement
  response : Response
deriving Repr

/-- The handler of `GET /api/books/:id/reviews`; `book_id` is the route parameter
as the integer the store reads it as, `orderBy` the store's sort.  The offset
is computed in number arithmetic.  A rejected statement ends the task and the
handler answers 500. -/
def getReviews (orderBy : List (Review × User) → List (Review × User)) (s : Store)
    (book_id : Int) (q : ReviewsQuery) : ReviewsRun :=
  let pageNumber := parseInt (textOrDefault q.page 1)
  let reviewsPerPage := parseInt (textOrDefault q.limit 10)
  if isNaN pageNumber || isNaN reviewsPerPage then
    ⟨[], ⟨400, .error "Invalid page or limit"⟩⟩
  else
    let offset := jsMul (jsSub pageNumber 1) reviewsPerPage
    match selectReviewsPage orderBy s book_id reviewsPerPage offset with
    | .error _ =>
      ⟨[.selectPage book_id reviewsPerPage offset], ⟨500, .error "Failed to fetch reviews"⟩⟩
    | .ok reviews =>
      ⟨[.selectPage book_id reviewsPerPage offset, .countReviews book_id],
        ⟨200, .reviews reviews (countReviews s book_id)⟩⟩

/-- The store's execution of the like update with the number bound at `$1`: every
row with that identifier gets its counter raised by one.  An infinity or `NaN`
arrives as text that is no integer and the store rejects the statement; a
finite number that is no integer equals no identifier. -/
def likeUpdate (reviews : List Review) (review_id : JsNumber) : Except String (List Review) :=
  match review_id with
  | .finite v 0 =>
    .ok (reviews.map (fun r => if r.review_id = v then { r with likes := r.likes + 1 } else r))
  | .finite _ (_ + 1) => .ok reviews
  | _ => .error "invalid input syntax for type integer"

/-- The handler of `POST /api/reviews/:review_id/like`: the store after the
request, the statements sent and the response. -/
def likeReview (s : Store) (review_id : String) : Store × ReviewsRun :=
  if isNaN (parseInt review_id) then (s, ⟨[], ⟨400, .error "Invalid review ID"⟩⟩)
  else
    match likeUpdate s.reviews (parseInt review_id) with
    | .error _ =>
      (s, ⟨[.likeUpdate (parseInt review_id)], ⟨500, .error "Failed to like review"⟩⟩)
    | .ok reviews =>
      ({ s with reviews := reviews }, ⟨[.likeUpdate (parseInt review_id)], ⟨200, .success⟩⟩)

/-- A text is a decimal numeral of `n`: one or more decimal digits whose value in
base 10 is `n`. -/
def DecimalNumeral (text : String) (n : Nat) : Prop :=
  text.data ≠ [] ∧ (∀ c ∈ text.data, isDecimalDigit c = true) ∧
    Nat.ofDigits 10 ((text.data.map (fun c => c.toNat - 48)).reverse) = n

/-- A query parameter gives the number `n`: it is absent and `n` is the default,
or it is a string that is a decimal numeral of `n`. -/
def GivenAs (v : Option QVal) (dflt n : Nat) : Prop :=
  (v = none ∧ n = dflt) ∨ ∃ text, v = some (.str text) ∧ DecimalNumeral text n

/-- A text has no leading integer: however it is cut into white space, an
optional sign, a run of decimal digits and a rest, the run of digits is
empty. -/
def NoLeadingInteger (text : String) : Prop :=
  ∀ ws sign digits rest : List Char, text.data = ws ++ sign ++ digits ++ rest →
    (∀ c ∈ ws, isJsWhiteSpace c = true) → (sign = [] ∨ sign = ['+'] ∨ sign = ['-']) →
    (∀ c ∈ digits, isDecimalDigit c = true) → digits = []

/-- The reviews of a book in the order of the page statement: by creation time,
latest first. -/
def rankedReviews (s : Store) (book_id : Int) : List Review :=
  (s.reviews.filter (fun r => r.book_id = book_id)).insertionSort
    (fun a b => b.created_at ≤ a.created_at)

/-- A text is a numeral of the integer `z`: a decimal numeral, or a minus sign
followed by one. -/
def IntegerNumeral (text : String) (z : Int) : Prop :=
  ∃ digits n, DecimalNumeral digits n ∧
    ((text = digits ∧ z = (n : Int)) ∨ (text = "-" ++ digits ∧ z = -(n : Int)))

/-- A store with twelve reviews of book 1, written by two users at the times
101 to 112 (review `k` at time `100 + k`), and one review of book 2. -/
def twelveReviewStore : Store :=
  { userz :=
      [ { id := 1, username := some "alice", email := some "alice@example.org",
          password := some "pw1", role := some "user", profile_pic_url := none },
        { id := 2, username := some "bob", email := some "bob@example.org",
          password := some "pw2", role := some "user",
          profile_pic_url := some "https://img.example.org/bob.png" } ],
    userz_id_seq := 2,
    books := [],
    reviews :=
      [ ⟨1, 1, 1, some "r1", 101, 0⟩, ⟨2, 1, 2, some "r2", 102, 3⟩,
        ⟨3, 1, 1, some "r3", 103, 0⟩, ⟨4, 1, 2, some "r4", 104, 1⟩,
        ⟨13, 2, 1, some "other book", 150, 9⟩,
        ⟨5, 1, 1, some "r5", 105, 0⟩, ⟨6, 1, 2, some "r6", 106, 0⟩,
        ⟨7, 1, 1, some "r7", 107, 2⟩, ⟨8, 1, 2, some "r8", 108, 0⟩,
        ⟨9, 1, 1, some "r9", 109, 0⟩, ⟨10, 1, 2, some "r10", 110, 5⟩,
        ⟨11, 1, 1, some "r11", 111, 0⟩, ⟨12, 1, 2, some "r12", 112, 0⟩ ] }

/-- A store with one review of book 1 whose author matches no row of `userz`. -/
def orphanReviewStore : Store :=
  { userz := [], userz_id_seq := 0, books := [],
    reviews := [⟨1, 1, 99, some "written by a user that is gone", 101, 0⟩] }

/-- A numeral of four hundred digits `9`. -/
def fourHundredNines : String := String.mk (List.replicate 400 '9')

/-! ## The statement as the specification describes it -/

/-- A text is a decimal number with the value `p / d`: a run of digits (then
`d = 1`), or digits, a point and digits, read as one integer `p` over 10 to
the number of digits after the point. -/
def DecimalValue (text : String) (p d : Nat) : Prop :=
  (DecimalNumeral text p ∧ d = 1) ∨
  ∃ ip fp : List Char, ip ≠ [] ∧ fp ≠ [] ∧
    (∀ c ∈ ip, isDecimalDigit c = true) ∧ (∀ c ∈ fp, isDecimalDigit c = true) ∧
    text.data = ip ++ '.' :: fp ∧
    Nat.ofDigits 10 (((ip ++ fp).map (fun c => c.toNat - 48)).reverse) = p ∧
    d = 10 ^ fp.length

/-- A price criterion and the number bound for it: when the criterion is present
it is a decimal number and the number is its value as a double.  Nothing is
asked of an absent criterion, for which nothing is bound. -/
def PriceBound (v : Option QVal) (bound : JsNumber) : Prop :=
  truthy v = true → ∃ p d, DecimalValue (render v) p d ∧ bound = roundFraction false p d

/-- One criterion of a query handler as the specification speaks of it: the
request value, the AND-clause as a function of the number of its placeholder,
and the value bound for it. -/
structure Criterion where
  value : Option QVal
  clause : Nat → String
  bound : Param

/-- The statement that the specification describes for a list of criteria in the
handler's order: the base text followed by one clause per present criterion,
the clause of the i-th present criterion written with placeholder `$i`, and
the parameter list with the value bound for the i-th present criterion at
position i. -/
def specStatement (criteria : List Criterion) : Statement :=
  let present := criteria.filter (fun c => truthy c.value)
  ((present.enumFrom 1).foldl (fun text ic => text ++ ic.2.clause ic.1)
      "SELECT * FROM books WHERE 1=1",
    present.map (fun c => c.bound))

/-- The criteria of `GET /api/search` in the handler's order: free text over
title, author and genre (substring), genre (equality), author (substring),
minimum price, maximum price.  A substring value is bound between two `%`; for
the price bounds the numbers `lo` and `hi` are bound, the values of the two
criteria. -/
def specSearchCriteria (q : SearchQuery) (lo hi : JsNumber) : List Criterion :=
  [ { value := q.query,
      clause := fun i => " AND (title ILIKE " ++ placeholder i ++ " OR author ILIKE " ++
        placeholder i ++ " OR genre ILIKE " ++ placeholder i ++ ")",
      bound := .text ("%" ++ render q.query ++ "%") },
    { value := q.genre,
      clause := fun i => " AND genre = " ++ placeholder i,
      bound := .raw q.genre },
    { value := q.author,
      clause := fun i => " AND author ILIKE " ++ placeholder i,
      bound := .text ("%" ++ render q.author ++ "%") },
    { value := q.minPrice,
      clause := fun i => " AND price >= " ++ placeholder i,
      bound := .num lo },
    { value := q.maxPrice,
      clause := fun i => " AND price <= " ++ placeholder i,
      bound := .num hi } ]

/-- The criteria of `GET /api/advanced-search` in the handler's order: title,
author and genre (all substring), minimum price, maximum price, with `lo` and
`hi` the values of the two price criteria. -/
def specAdvancedCriteria (q : AdvancedQuery) (lo hi : JsNumber) : List Criterion :=
  [ { value := q.title,
      clause := fun i => " AND title ILIKE " ++ placeholder i,
      bound := .text ("%" ++ render q.title ++ "%") },
    { value := q.author,
      clause := fun i => " AND author ILIKE " ++ placeholder i,
      bound := .text ("%" ++ render q.author ++ "%") },
    { value := q.genre,
      clause := fun i => " AND genre ILIKE " ++ placeholder i,
      bound := .text ("%" ++ render q.genre ++ "%") },
    { value := q.minPrice,
      clause := fun i => " AND price >= " ++ placeholder i,
      bound := .num lo },
    { value := q.maxPrice,
      clause := fun i => " AND price <= " ++ placeholder i,
      bound := .num hi } ]

/-- Two rows of table `books` for concrete evaluations. -/
def sampleBooks : List BookRow :=
  [ { isbn := .str "9780261103573", title := .str "The Fellowship of the Ring",
      author := .arr [.str "J. R. R. Tolkien"], genre := .arr [.str "Fantasy"],
      price := .num 1299 (-2), image_url := .null, description := .null,
      username := .str "Admin" },
    { isbn := .str "9780141439518", title := .str "Pride and Prejudice",
      author := .arr [.str "Jane Austen"], genre := .arr [.str "Romance"],
      price := .num 799 (-2), image_url := .null, description := .null,
      username := .str "Admin" } ]

/-- A store client over a given table for concrete evaluations: it answers the
base statement without parameters with every row of the table, as a `SELECT`
whose predicate is `1=1` does, and rejects any other statement. -/
def baseStatementClient (books : List BookRow) (text : String) (params : List Param) :
    Except String (List BookRow) :=
  if text = "SELECT * FROM books WHERE 1=1" ∧ params = [] then .ok books
  else .error "statement not supported by this client"

/-! # Theorems -/

/-! ## Facts about the split -/

theorem splitOnSpace_ne_nil (cs : List Char) : splitOnSpace cs ≠ [] := by
  cases cs with
  | nil => simp [splitOnSpace]
  | cons c cs =>
    rw [splitOnSpace]
    split
    · simp
    · split <;> simp

theorem splitOnSpace_eq_splitOn (cs : List Char) :
    splitOnSpace cs = cs.splitOn space := by
  induction cs with
  | nil => rfl
  | cons c cs ih =>
    rw [splitOnSpace, List.splitOn, List.splitOnP_cons, ← List.splitOn, ← ih]
    by_cases hc : c = space
    · simp [hc]
    · simp only [hc, if_false, beq_iff_eq]
      cases h : splitOnSpace cs with
      | nil => exact absurd h (splitOnSpace_ne_nil cs)
      | cons f fs => simp [List.modifyHead]

/-! ## Authorisation gate -/

theorem extractToken_some (h : String) :
    extractToken (some h) = ((h.data.splitOn space)[1]?).map String.mk ∨
      (h = "" ∧ extractToken (some h) = some "") := by
  unfold extractToken
  by_cases hh : h = ""
  · right; simp [hh]
  · left; simp [hh, splitOnSpace_eq_splitOn]

theorem string_mk_eq_empty (cs : List Char) : String.mk cs = "" ↔ cs = [] := by
  constructor
  · intro h
    have := congrArg String.data h
    simpa using this
  · rintro rfl; rfl

/-- C1: `authenticateToken` answers 401, calling neither the verifier nor the next
handler, when the Authorization header is absent or its split on spaces has no
non-empty field at index 1; otherwise it verifies that field, and answers 403
without calling the next handler when verification fails, or stores the decoded
claim in `req.user` and calls the next handler exactly once, sending nothing,
when verification succeeds. -/
theorem authenticateToken_contract (jwtVerify : String → Except String Claim)
    (req : AuthRequest) :
    ((∀ h, req.authorization = some h → ((h.data.splitOn space)[1]?).getD [] = []) →
        authenticateToken jwtVerify req = (req, [.statusSent 401])) ∧
    (∀ h t, req.authorization = some h → (h.data.splitOn space)[1]? = some t → t ≠ [] →
        (∀ err, jwtVerify (String.mk t) = .error err →
          authenticateToken jwtVerify req =
            (req, [.verifyCalled (String.mk t), .errorLogged err, .statusSent 403])) ∧
        (∀ u, jwtVerify (String.mk t) = .ok u →
          authenticateToken jwtVerify req =
            ({ req with user := some u }, [.verifyCalled (String.mk t), .nextCalled]))) := by
  constructor
  · intro hno
    cases hauth : req.authorization with
    | none => simp [authenticateToken, extractToken, tokenMissing, hauth]
    | some h =>
      have hfield := hno h hauth
      rcases extractToken_some h with hx | ⟨-, hx⟩
      · cases hf : (h.data.splitOn space)[1]? with
        | none => simp [authenticateToken, hauth, hx, hf, tokenMissing]
        | some t =>
          rw [hf] at hfield
          simp only [Option.getD_some] at hfield
          subst hfield
          simp [authenticateToken, hauth, hx, hf, tokenMissing]
      · simp [authenticateToken, hauth, hx, tokenMissing]
  · intro h t hauth hf ht
    have hne : h ≠ "" := by
      rintro rfl
      simp [List.splitOn, List.splitOnP, List.splitOnP.go] at hf
    have hx : extractToken (some h) = some (String.mk t) := by
      simp [extractToken, hne, splitOnSpace_eq_splitOn, hf]
    have hmk : (String.mk t == "") = false := by
      simp [string_mk_eq_empty, ht]
    constructor
    · intro err hv
      simp [authenticateToken, hauth, hx, tokenMissing, hmk, hv]
    · intro u hv
      simp [authenticateToken, hauth, hx, tokenMissing, hmk, hv]

/-- Witness for C1: the three branches at concrete requests (no header, a bearer
token the verifier rejects, a bearer token it accepts). -/
theorem authenticateToken_contract_witness :
    authenticateToken sampleVerify ⟨none, none⟩ = (⟨none, none⟩, [.statusSent 401]) ∧
    authenticateToken sampleVerify ⟨some "Bearer bad", none⟩ =
      (⟨some "Bearer bad", none⟩,
        [.verifyCalled "bad", .errorLogged "invalid signature", .statusSent 403]) ∧
    authenticateToken sampleVerify ⟨some "Bearer good", none⟩ =
      (⟨some "Bearer good", some ⟨7, "user"⟩⟩, [.verifyCalled "good", .nextCalled]) :=
  ⟨(authenticateToken_contract sampleVerify ⟨none, none⟩).1 (by simp),
   ((authenticateToken_contract sampleVerify ⟨some "Bearer bad", none⟩).2
      "Bearer bad" "bad".data rfl (by decide) (by decide)).1 "invalid signature" rfl,
   ((authenticateToken_contract sampleVerify ⟨some "Bearer good", none⟩).2
      "Bearer good" "good".data rfl (by decide) (by decide)).2 ⟨7, "user"⟩ rfl⟩

/-! ## Registration -/

theorem sqlEq_eq_true (column param : Option String) :
    sqlEq column param = true ↔ ∃ v, column = some v ∧ param = some v := by
  cases column with
  | none => simp [sqlEq]
  | some a =>
    cases param with
    | none => simp [sqlEq]
    | some b =>
      simp only [sqlEq, beq_iff_eq, Option.some.injEq]
      constructor
      · rintro rfl; exact ⟨a, rfl, rfl⟩
      · rintro ⟨v, rfl, rfl⟩; rfl

theorem selectUserByNameOrEmail_eq_nil (users : List User) (username email : Option String) :
    selectUserByNameOrEmail users username email = [] ↔
      ∀ u ∈ users, (∀ n, username = some n → u.username ≠ some n) ∧
        (∀ e, email = some e → u.email ≠ some e) := by
  unfold selectUserByNameOrEmail
  rw [List.filter_eq_nil_iff]
  constructor
  · intro h u hu
    have hu2 := h u hu
    simp only [Bool.or_eq_true, not_or, sqlEq_eq_true] at hu2
    constructor
    · intro n hn hun
      exact hu2.1 ⟨n, hun, hn⟩
    · intro e he hue
      exact hu2.2 ⟨e, hue, he⟩
  · intro h u hu
    have hu2 := h u hu
    simp only [Bool.or_eq_true, not_or, sqlEq_eq_true]
    constructor
    · rintro ⟨v, hv1, hv2⟩
      exact hu2.1 v hv2 hv1
    · rintro ⟨v, hv1, hv2⟩
      exact hu2.2 v hv2 hv1

/-- Whenever the lookup finds at least one row the handler leaves the store as it
was and answers 400 (one row) or 500 (several rows). -/
theorem register_collision_inserts_nothing (s : Store) (body : RegisterBody)
    (hcol : selectUserByNameOrEmail s.userz body.username body.email ≠ []) :
    (register s body).1 = s ∧
      ((register s body).2.status = 400 ∨ (register s body).2.status = 500) := by
  unfold register
  cases h : selectUserByNameOrEmail s.userz body.username body.email with
  | nil => exact absurd h hcol
  | cons u rest =>
    cases rest with
    | nil => simp [oneOrNone]
    | cons v rest2 => simp [oneOrNone]

/-- C2, at the failing input: with the name of one stored user and the email of
another the lookup returns two rows, `oneOrNone` rejects, and the handler answers
500 instead of the 400 conflict error; the store is left as it was. -/
theorem register_cross_collision_answers_500 :
    selectUserByNameOrEmail twoUserStore.userz crossCollision.username crossCollision.email
        = twoUserStore.userz ∧
      (register twoUserStore crossCollision).1.userz = twoUserStore.userz ∧
      (register twoUserStore crossCollision).2.status = 500 := by
  refine ⟨by decide, by decide, by decide⟩

/-- C3: when no stored user has the requested user name or email, the handler
inserts exactly one user, answers 201 with it, and the role of that user is
`admin` if and only if the user name is `Admin1`, `Admin2` or `Admin3`, and
`user` otherwise. -/
theorem register_assigns_role (s : Store) (body : RegisterBody)
    (hfree : ∀ u ∈ s.userz, (∀ n, body.username = some n → u.username ≠ some n) ∧
      (∀ e, body.email = some e → u.email ≠ some e)) :
    ∃ newUser : User,
      (register s body).1.userz = s.userz ++ [newUser] ∧
      (register s body).2.status = 201 ∧
      newUser.username = body.username ∧ newUser.email = body.email ∧
      (newUser.role = some "admin" ↔
        (body.username = some "Admin1" ∨ body.username = some "Admin2" ∨
          body.username = some "Admin3")) ∧
      (newUser.role ≠ some "admin" → newUser.role = some "user") := by
  have hnil := (selectUserByNameOrEmail_eq_nil s.userz body.username body.email).mpr hfree
  refine ⟨{ id := s.userz_id_seq + 1, username := body.username, email := body.email,
            password := body.password, role := some (roleFor body.username),
            profile_pic_url := none }, ?_, ?_, rfl, rfl, ?_, ?_⟩
  · simp [register, hnil, oneOrNone, insertUser, one]
  · simp [register, hnil, oneOrNone, insertUser, one]
  · cases hu : body.username with
    | none => simp [roleFor]
    | some n =>
      simp only [roleFor, adminUsernames, Option.some.injEq]
      by_cases hn : n ∈ ["Admin1", "Admin2", "Admin3"]
      · simp only [hn, if_true, true_iff]
        simpa using hn
      · simp only [hn, if_false]
        constructor
        · intro h; exact absurd h (by decide)
        · intro h; exact absurd (by simpa using h) hn
  · cases hu : body.username with
    | none => simp [roleFor]
    | some n =>
      simp only [roleFor]
      split <;> simp

/-- Witness for C3: registering `Admin2` in the two-user store. -/
theorem register_assigns_role_witness :
    ∃ newUser : User,
      (register twoUserStore ⟨some "Admin2", some "root@example.org", some "pw"⟩).1.userz
        = twoUserStore.userz ++ [newUser] ∧
      (register twoUserStore ⟨some "Admin2", some "root@example.org", some "pw"⟩).2.status
        = 201 ∧
      newUser.username = some "Admin2" ∧ newUser.email = some "root@example.org" ∧
      (newUser.role = some "admin" ↔
        ((some "Admin2" : Option String) = some "Admin1" ∨
          (some "Admin2" : Option String) = some "Admin2" ∨
          (some "Admin2" : Option String) = some "Admin3")) ∧
      (newUser.role ≠ some "admin" → newUser.role = some "user") :=
  register_assigns_role twoUserStore ⟨some "Admin2", some "root@example.org", some "pw"⟩
    (by decide)

/-! ## Bulk insert -/

theorem truthy_undefined : JsVal.undefined.truthy = false := rfl

theorem bookIncomplete_of_lacking (book : JsVal)
    (hlack : fieldOf book "isbn" = .undefined ∨ fieldOf book "title" = .undefined ∨
      fieldOf book "price" = .undefined) :
    bookIncomplete book = .ok true ∨ ∃ e, bookIncomplete book = .error e := by
  cases book with
  | undefined => right; exact ⟨_, rfl⟩
  | null => right; exact ⟨_, rfl⟩
  | bool b => left; rfl
  | num m e => left; rfl
  | str s => left; rfl
  | arr items => left; rfl
  | obj fields =>
    left
    simp only [fieldOf] at hlack
    simp only [bookIncomplete, JsVal.getProp]
    rcases hlack with h | h | h
    · simp [h, truthy_undefined]
    · by_cases h1 : ((List.lookup "isbn" fields).getD JsVal.undefined).truthy = true
      · simp [h1, h, truthy_undefined]
      · simp [h1]
    · by_cases h1 : ((List.lookup "isbn" fields).getD JsVal.undefined).truthy = true
      · by_cases h2 : ((List.lookup "title" fields).getD JsVal.undefined).truthy = true
        · simp [h1, h2, h, truthy_undefined]
        · simp [h1, h2]
      · simp [h1]

theorem bookIncomplete_not_null (book : JsVal) (h1 : book ≠ .null) (h2 : book ≠ .undefined) :
    ∃ b, bookIncomplete book = .ok b := by
  cases book with
  | undefined => exact absurd rfl h2
  | null => exact absurd rfl h1
  | bool b => exact ⟨_, rfl⟩
  | num m e => exact ⟨_, rfl⟩
  | str s => exact ⟨_, rfl⟩
  | arr items => exact ⟨_, rfl⟩
  | obj fields =>
    simp only [bookIncomplete, JsVal.getProp]
    split <;> [exact ⟨_, rfl⟩; (split <;> exact ⟨_, rfl⟩)]

theorem validateBooks_of_lacking (books : List JsVal)
    (hlack : ∃ b ∈ books, fieldOf b "isbn" = .undefined ∨ fieldOf b "title" = .undefined ∨
      fieldOf b "price" = .undefined) :
    validateBooks books = .ok false ∨ ∃ e, validateBooks books = .error e := by
  induction books with
  | nil => simp at hlack
  | cons book rest ih =>
    rw [validateBooks]
    cases hb : bookIncomplete book with
    | error e => right; exact ⟨e, rfl⟩
    | ok flag =>
      cases flag with
      | true => left; rfl
      | false =>
        obtain ⟨b, hmem, hb2⟩ := hlack
        rcases List.mem_cons.mp hmem with rfl | hrest
        · rcases bookIncomplete_of_lacking b hb2 with h | ⟨e, h⟩ <;> simp [h] at hb
        · exact ih ⟨b, hrest, hb2⟩

theorem validateBooks_no_throw (books : List JsVal)
    (hnull : ∀ b ∈ books, b ≠ .null ∧ b ≠ .undefined) :
    ∃ ok, validateBooks books = .ok ok := by
  induction books with
  | nil => exact ⟨true, rfl⟩
  | cons book rest ih =>
    rw [validateBooks]
    obtain ⟨flag, hflag⟩ :=
      bookIncomplete_not_null book (hnull book (List.mem_cons_self _ _)).1
        (hnull book (List.mem_cons_self _ _)).2
    rw [hflag]
    cases flag with
    | true => exact ⟨false, rfl⟩
    | false => exact ih (fun b hb => hnull b (List.mem_cons_of_mem _ hb))

/-- An array with an element that lacks an ISBN, a title or a price never reaches
the transaction: no insert is issued and the store is unchanged.  The handler
answers 400 unless a property read throws first, which only a `null` element
causes. -/
theorem addBooksBulk_incomplete_no_insert (accepts : List BookRow → BookRow → Bool)
    (s : Store) (reqUser : JsVal) (books : List JsVal)
    (hlack : ∃ b ∈ books, fieldOf b "isbn" = .undefined ∨ fieldOf b "title" = .undefined ∨
      fieldOf b "price" = .undefined) :
    (addBooksBulk accepts s reqUser (.arr books)).inserts = [] ∧
    (addBooksBulk accepts s reqUser (.arr books)).store.books = s.books ∧
    ((∀ b ∈ books, b ≠ .null ∧ b ≠ .undefined) →
      ∃ msg, (addBooksBulk accepts s reqUser (.arr books)).completion =
        .responded ⟨400, .error msg⟩) := by
  rcases validateBooks_of_lacking books hlack with h | ⟨e, h⟩
  · simp [addBooksBulk, h]
  · refine ⟨by simp [addBooksBulk, h], by simp [addBooksBulk, h], ?_⟩
    intro hnull
    obtain ⟨ok, hok⟩ := validateBooks_no_throw books hnull
    rw [h] at hok
    cases hok

/-- C4, at the failing input: for the body `[null]`, whose one element lacks all
three fields, the validation loop throws on the read `book.isbn`; the handler
answers nothing, and in particular not 400.  No insert is issued. -/
theorem addBooksBulk_null_element_throws :
    fieldOf .null "isbn" = .undefined ∧
    (addBooksBulk (fun _ _ => true) emptyStore .undefined (.arr [.null])).completion =
      .threw "TypeError: Cannot read properties of null (reading \x27isbn\x27)" ∧
    (addBooksBulk (fun _ _ => true) emptyStore .undefined (.arr [.null])).inserts = [] :=
  ⟨rfl, rfl, rfl⟩

/-! ## Query construction -/

theorem addClause_shape (a b : Statement) (c1 c2 : Option QVal) (clause : Nat → String)
    (v1 v2 : Param) (htext : a.1 = b.1) (hlen : a.2.length = b.2.length)
    (hc : truthy c1 = truthy c2) :
    (addClause a c1 clause v1).1 = (addClause b c2 clause v2).1 ∧
      (addClause a c1 clause v1).2.length = (addClause b c2 clause v2).2.length := by
  unfold addClause
  rw [hc]
  by_cases h : truthy c2 = true
  · simp [h, htext, hlen]
  · simp [h, htext, hlen]

theorem mem_addClause_self (st : Statement) (c : Option QVal) (clause : Nat → String)
    (v : Param) (hc : truthy c = true) : v ∈ (addClause st c clause v).2 := by
  simp [addClause, hc]

theorem mem_addClause_of_mem (st : Statement) (c : Option QVal) (clause : Nat → String)
    (v p : Param) (hp : p ∈ st.2) : p ∈ (addClause st c clause v).2 := by
  unfold addClause
  split
  · simp [hp]
  · exact hp

theorem runQuery_sent (dbAny : String → List Param → Except String (List BookRow))
    (present : List BookRow → Except String Body) (st : Statement) :
    (runQuery dbAny present st).sent = [st] := by
  unfold runQuery
  split
  · rfl
  · split <;> rfl

theorem runQuery_status (dbAny : String → List Param → Except String (List BookRow))
    (present : List BookRow → Except String Body) (st : Statement) :
    (runQuery dbAny present st).response.status = 200 ∨
      (runQuery dbAny present st).response.status = 500 := by
  unfold runQuery
  split
  · right; rfl
  · split
    · right; rfl
    · left; rfl

theorem buildSearch_text_congr (q1 q2 : SearchQuery)
    (h1 : truthy q1.query = truthy q2.query) (h2 : truthy q1.genre = truthy q2.genre)
    (h3 : truthy q1.author = truthy q2.author) (h4 : truthy q1.minPrice = truthy q2.minPrice)
    (h5 : truthy q1.maxPrice = truthy q2.maxPrice) :
    (buildSearch q1).1 = (buildSearch q2).1 := by
  unfold buildSearch
  have s1 := addClause_shape ("SELECT * FROM books WHERE 1=1", [])
    ("SELECT * FROM books WHERE 1=1", []) q1.query q2.query
    (fun _ => " AND (title ILIKE $1 OR author ILIKE $1 OR genre ILIKE $1)")
    (.text ("%" ++ render q1.query ++ "%")) (.text ("%" ++ render q2.query ++ "%")) rfl rfl h1
  have s2 := addClause_shape _ _ q1.genre q2.genre
    (fun n => " AND genre = " ++ placeholder (n + 1)) (.raw q1.genre) (.raw q2.genre)
    s1.1 s1.2 h2
  have s3 := addClause_shape _ _ q1.author q2.author
    (fun n => " AND author ILIKE " ++ placeholder (n + 1))
    (.text ("%" ++ render q1.author ++ "%")) (.text ("%" ++ render q2.author ++ "%"))
    s2.1 s2.2 h3
  have s4 := addClause_shape _ _ q1.minPrice q2.minPrice
    (fun n => " AND price >= " ++ placeholder (n + 1))
    (.num (parseFloat (render q1.minPrice))) (.num (parseFloat (render q2.minPrice)))
    s3.1 s3.2 h4
  exact (addClause_shape _ _ q1.maxPrice q2.maxPrice
    (fun n => " AND price <= " ++ placeholder (n + 1))
    (.num (parseFloat (render q1.maxPrice))) (.num (parseFloat (render q2.maxPrice)))
    s4.1 s4.2 h5).1

theorem buildAdvancedSearch_text_congr (q1 q2 : AdvancedQuery)
    (h1 : truthy q1.title = truthy q2.title) (h2 : truthy q1.author = truthy q2.author)
    (h3 : truthy q1.genre = truthy q2.genre) (h4 : truthy q1.minPrice = truthy q2.minPrice)
    (h5 : truthy q1.maxPrice = truthy q2.maxPrice) :
    (buildAdvancedSearch q1).1 = (buildAdvancedSearch q2).1 := by
  unfold buildAdvancedSearch
  have s1 := addClause_shape ("SELECT * FROM books WHERE 1=1", [])
    ("SELECT * FROM books WHERE 1=1", []) q1.title q2.title
    (fun n => " AND title ILIKE " ++ placeholder (n + 1))
    (.text ("%" ++ render q1.title ++ "%")) (.text ("%" ++ render q2.title ++ "%")) rfl rfl h1
  have s2 := addClause_shape _ _ q1.author q2.author
    (fun n => " AND author ILIKE " ++ placeholder (n + 1))
    (.text ("%" ++ render q1.author ++ "%")) (.text ("%" ++ render q2.author ++ "%"))
    s1.1 s1.2 h2
  have s3 := addClause_shape _ _ q1.genre q2.genre
    (fun n => " AND genre ILIKE " ++ placeholder (n + 1))
    (.text ("%" ++ render q1.genre ++ "%")) (.text ("%" ++ render q2.genre ++ "%"))
    s2.1 s2.2 h3
  have s4 := addClause_shape _ _ q1.minPrice q2.minPrice
    (fun n => " AND price >= " ++ placeholder (n + 1))
    (.num (parseFloat (render q1.minPrice))) (.num (parseFloat (render q2.minPrice)))
    s3.1 s3.2 h4
  exact (addClause_shape _ _ q1.maxPrice q2.maxPrice
    (fun n => " AND price <= " ++ placeholder (n + 1))
    (.num (parseFloat (render q1.maxPrice))) (.num (parseFloat (render q2.maxPrice)))
    s4.1 s4.2 h5).1

theorem buildFilter_text_congr (q1 q2 : FilterQuery)
    (h1 : truthy q1.genre = truthy q2.genre) (h2 : truthy q1.author = truthy q2.author)
    (h3 : truthy q1.minPrice = truthy q2.minPrice)
    (h4 : truthy q1.maxPrice = truthy q2.maxPrice) :
    (buildFilter q1).1 = (buildFilter q2).1 := by
  unfold buildFilter
  have s1 := addClause_shape ("SELECT * FROM books WHERE 1=1", [])
    ("SELECT * FROM books WHERE 1=1", []) q1.genre q2.genre
    (fun _ => " AND $1 = ANY(genre)") (.raw q1.genre) (.raw q2.genre) rfl rfl h1
  have s2 := addClause_shape _ _ q1.author q2.author
    (fun _ => " AND $2 = ANY(author)") (.raw q1.author) (.raw q2.author) s1.1 s1.2 h2
  have s3 := addClause_shape _ _ q1.minPrice q2.minPrice
    (fun n => " AND price >= " ++ placeholder (n + 1))
    (.num (parseFloat (render q1.minPrice))) (.num (parseFloat (render q2.minPrice)))
    s2.1 s2.2 h3
  exact (addClause_shape _ _ q1.maxPrice q2.maxPrice
    (fun n => " AND price <= " ++ placeholder (n + 1))
    (.num (parseFloat (render q1.maxPrice))) (.num (parseFloat (render q2.maxPrice)))
    s3.1 s3.2 h4).1

/-- C5: in each of the three query handlers the text of the statement sent to the
store is the same for any two requests in which the same criteria are present
(truthy), whatever their values and whatever the store answers: the values
travel in the parameter list only. -/
theorem statement_text_independent_of_values
    (db1 db2 : String → List Param → Except String (List BookRow))
    (fmt1 fmt2 : List BookRow → Except String Body) :
    (∀ q1 q2 : SearchQuery,
      truthy q1.query = truthy q2.query → truthy q1.genre = truthy q2.genre →
      truthy q1.author = truthy q2.author → truthy q1.minPrice = truthy q2.minPrice →
      truthy q1.maxPrice = truthy q2.maxPrice →
      (searchBooks db1 q1).sent.map Prod.fst = (searchBooks db2 q2).sent.map Prod.fst) ∧
    (∀ q1 q2 : AdvancedQuery,
      truthy q1.title = truthy q2.title → truthy q1.author = truthy q2.author →
      truthy q1.genre = truthy q2.genre → truthy q1.minPrice = truthy q2.minPrice →
      truthy q1.maxPrice = truthy q2.maxPrice →
      (advancedSearch db1 q1).sent.map Prod.fst =
        (advancedSearch db2 q2).sent.map Prod.fst) ∧
    (∀ q1 q2 : FilterQuery,
      truthy q1.genre = truthy q2.genre → truthy q1.author = truthy q2.author →
      truthy q1.minPrice = truthy q2.minPrice → truthy q1.maxPrice = truthy q2.maxPrice →
      (filterBooks db1 fmt1 q1).sent.map Prod.fst =
        (filterBooks db2 fmt2 q2).sent.map Prod.fst) := by
  refine ⟨?_, ?_, ?_⟩
  · intro q1 q2 h1 h2 h3 h4 h5
    simp only [searchBooks, runQuery_sent, List.map_cons, List.map_nil]
    rw [buildSearch_text_congr q1 q2 h1 h2 h3 h4 h5]
  · intro q1 q2 h1 h2 h3 h4 h5
    simp only [advancedSearch, runQuery_sent, List.map_cons, List.map_nil]
    rw [buildAdvancedSearch_text_congr q1 q2 h1 h2 h3 h4 h5]
  · intro q1 q2 h1 h2 h3 h4
    simp only [filterBooks, runQuery_sent, List.map_cons, List.map_nil]
    rw [buildFilter_text_congr q1 q2 h1 h2 h3 h4]

/-- Witness for C5: a genre value written to break out of the statement and an
ordinary one give the same statement text in all three handlers. -/
theorem statement_text_independent_of_values_witness :
    (searchBooks noRows ⟨none, some (.str "x; DROP TABLE books; --"), none, none, none⟩).sent.map
        Prod.fst =
      (searchBooks noRows ⟨none, some (.str "fiction"), none, none, none⟩).sent.map Prod.fst ∧
    (advancedSearch noRows
        ⟨none, none, some (.str "x; DROP TABLE books; --"), none, none⟩).sent.map Prod.fst =
      (advancedSearch noRows ⟨none, none, some (.str "fiction"), none, none⟩).sent.map
        Prod.fst ∧
    (filterBooks noRows (fun rows => .ok (.books rows))
        ⟨some (.str "x; DROP TABLE books; --"), none, none, none⟩).sent.map Prod.fst =
      (filterBooks noRows (fun rows => .ok (.books rows))
        ⟨some (.str "fiction"), none, none, none⟩).sent.map Prod.fst :=
  ⟨(statement_text_independent_of_values noRows noRows (fun rows => .ok (.books rows))
      (fun rows => .ok (.books rows))).1 _ _ rfl rfl rfl rfl rfl,
   (statement_text_independent_of_values noRows noRows (fun rows => .ok (.books rows))
      (fun rows => .ok (.books rows))).2.1 _ _ rfl rfl rfl rfl rfl,
   (statement_text_independent_of_values noRows noRows (fun rows => .ok (.books rows))
      (fun rows => .ok (.books rows))).2.2 _ _ rfl rfl rfl rfl⟩

/-- C6, at the failing input: with `author` present and `genre` absent the
statement of `GET /api/filter` uses placeholder `$2` while the parameter list
has one value, so the placeholder is out of range; with `minPrice` added, both
the author clause and the price clause use `$2`, which is the price bound. -/
theorem buildFilter_author_placeholder_out_of_range :
    buildFilter ⟨none, some (.str "Tolkien"), none, none⟩ =
      ("SELECT * FROM books WHERE 1=1 AND $2 = ANY(author)",
        [.raw (some (.str "Tolkien"))]) ∧
    placeholdersOf (buildFilter ⟨none, some (.str "Tolkien"), none, none⟩).1 = [2] ∧
    (buildFilter ⟨none, some (.str "Tolkien"), none, none⟩).2.length = 1 ∧
    buildFilter ⟨none, some (.str "Tolkien"), some (.str "5"), none⟩ =
      ("SELECT * FROM books WHERE 1=1 AND $2 = ANY(author) AND price >= $2",
        [.raw (some (.str "Tolkien")), .num 5]) := by
  refine ⟨by decide, by decide, by decide, by decide⟩

/-- C7, counterexample: with `minPrice=abc` each of the three handlers sends a
statement to the store, with `NaN` bound as the price, and answers 200. -/
theorem non_numeric_price_reaches_store :
    parseFloat "abc" = .nan ∧
    (searchBooks noRows ⟨none, none, none, some (.str "abc"), none⟩).sent =
      [("SELECT * FROM books WHERE 1=1 AND price >= $1", [.num .nan])] ∧
    (searchBooks noRows ⟨none, none, none, some (.str "abc"), none⟩).response.status = 200 ∧
    (advancedSearch noRows ⟨none, none, none, some (.str "abc"), none⟩).sent =
      [("SELECT * FROM books WHERE 1=1 AND price >= $1", [.num .nan])] ∧
    (advancedSearch noRows ⟨none, none, none, some (.str "abc"), none⟩).response.status
      = 200 ∧
    (filterBooks noRows (fun rows => .ok (.books rows))
        ⟨none, none, some (.str "abc"), none⟩).sent =
      [("SELECT * FROM books WHERE 1=1 AND price >= $1", [.num .nan])] ∧
    (filterBooks noRows (fun rows => .ok (.books rows))
        ⟨none, none, some (.str "abc"), none⟩).response.status = 200 := by
  refine ⟨by decide, by decide, by decide, by decide, by decide, by decide, by decide⟩

/-- C7, as amended: the three handlers do not validate the price bounds.  Whatever
`minPrice` and `maxPrice` hold, each handler sends its one statement to the
store and answers 200 or 500, never 400; a bound that is present is passed
through `parseFloat` and the result, `NaN` included, is in the parameter
list. -/
theorem price_bounds_not_validated
    (dbAny : String → List Param → Except String (List BookRow))
    (formatBooks : List BookRow → Except String Body)
    (q : SearchQuery) (a : AdvancedQuery) (f : FilterQuery) :
    ((searchBooks dbAny q).sent = [buildSearch q] ∧
      (searchBooks dbAny q).response.status ≠ 400 ∧
      (truthy q.minPrice = true →
        Param.num (parseFloat (render q.minPrice)) ∈ (buildSearch q).2) ∧
      (truthy q.maxPrice = true →
        Param.num (parseFloat (render q.maxPrice)) ∈ (buildSearch q).2)) ∧
    ((advancedSearch dbAny a).sent = [buildAdvancedSearch a] ∧
      (advancedSearch dbAny a).response.status ≠ 400 ∧
      (truthy a.minPrice = true →
        Param.num (parseFloat (render a.minPrice)) ∈ (buildAdvancedSearch a).2) ∧
      (truthy a.maxPrice = true →
        Param.num (parseFloat (render a.maxPrice)) ∈ (buildAdvancedSearch a).2)) ∧
    ((filterBooks dbAny formatBooks f).sent = [buildFilter f] ∧
      (filterBooks dbAny formatBooks f).response.status ≠ 400 ∧
      (truthy f.minPrice = true →
        Param.num (parseFloat (render f.minPrice)) ∈ (buildFilter f).2) ∧
      (truthy f.maxPrice = true →
        Param.num (parseFloat (render f.maxPrice)) ∈ (buildFilter f).2)) := by
  have hstatus : ∀ (present : List BookRow → Except String Body) (st : Statement),
      (runQuery dbAny present st).response.status ≠ 400 := by
    intro present st
    rcases runQuery_status dbAny present st with h | h <;> rw [h] <;> decide
  refine ⟨⟨runQuery_sent _ _ _, hstatus _ _, ?_, ?_⟩, ⟨runQuery_sent _ _ _, hstatus _ _, ?_, ?_⟩,
    ⟨runQuery_sent _ _ _, hstatus _ _, ?_, ?_⟩⟩
  · intro h
    exact mem_addClause_of_mem _ _ _ _ _ (mem_addClause_self _ _ _ _ h)
  · intro h
    exact mem_addClause_self _ _ _ _ h
  · intro h
    exact mem_addClause_of_mem _ _ _ _ _ (mem_addClause_self _ _ _ _ h)
  · intro h
    exact mem_addClause_self _ _ _ _ h
  · intro h
    exact mem_addClause_of_mem _ _ _ _ _ (mem_addClause_self _ _ _ _ h)
  · intro h
    exact mem_addClause_self _ _ _ _ h

/-! ## Number parsing -/

theorem isJsWhiteSpace_of_digit (c : Char) (h : isDecimalDigit c = true) :
    isJsWhiteSpace c = false := by
  simp only [isDecimalDigit, Bool.and_eq_true, decide_eq_true_eq] at h
  simp only [isJsWhiteSpace, decide_eq_false_iff_not, List.mem_cons, List.not_mem_nil,
    or_false]
  omega

theorem digit_ne_sign (c : Char) (h : isDecimalDigit c = true) : c ≠ '-' ∧ c ≠ '+' := by
  constructor
  · rintro rfl; exact absurd h (by decide)
  · rintro rfl; exact absurd h (by decide)

theorem foldl_digits_eq_ofDigits (ds : List Char) (acc : Nat) :
    ds.foldl (fun acc c => 10 * acc + (c.toNat - 48)) acc =
      Nat.ofDigits 10 ((ds.map (fun c => c.toNat - 48)).reverse ++ [acc]) := by
  induction ds generalizing acc with
  | nil => simp
  | cons d ds ih =>
    rw [List.foldl_cons, ih]
    simp only [List.map_cons, List.reverse_cons, List.append_assoc, List.singleton_append,
      Nat.ofDigits_append, Nat.ofDigits_cons, Nat.ofDigits_singleton]
    simp only [Nat.ofDigits_nil, Nat.cast_id]
    ring

theorem digitsValue_eq_ofDigits (ds : List Char) :
    digitsValue ds = Nat.ofDigits 10 ((ds.map (fun c => c.toNat - 48)).reverse) := by
  rw [digitsValue, foldl_digits_eq_ofDigits, Nat.ofDigits_append]
  simp

/-- An integer of magnitude at most `2 ^ 53` is its own number value. -/
theorem roundFraction_of_safe (negative : Bool) (p : Nat) (h : p ≤ 2 ^ 53) :
    roundFraction negative p 1 = .finite (signed negative p) 0 := by
  rw [roundFraction, if_pos ⟨rfl, h⟩]

theorem integerOfDigits_of_numeral (negative : Bool) (text : String) (n : Nat)
    (h : DecimalNumeral text n) :
    integerOfDigits negative (text.data.takeWhile isDecimalDigit) =
      roundFraction negative n 1 := by
  obtain ⟨hne, hall, hval⟩ := h
  have htake : text.data.takeWhile isDecimalDigit = text.data :=
    List.takeWhile_eq_self_iff.mpr hall
  rw [htake, integerOfDigits, if_neg hne, digitsValue_eq_ofDigits, hval]

theorem parseInt_of_numeral (text : String) (n : Nat) (h : DecimalNumeral text n) :
    parseInt text = roundFraction false n 1 := by
  have hv := integerOfDigits_of_numeral false text n h
  obtain ⟨hne, hall, -⟩ := h
  unfold parseInt
  cases hd : text.data with
  | nil => exact absurd hd hne
  | cons c rest =>
    have hc : isDecimalDigit c = true := hall c (by rw [hd]; exact List.mem_cons_self _ _)
    have hws : isJsWhiteSpace c = false := isJsWhiteSpace_of_digit c hc
    rw [List.dropWhile_cons_of_neg (by simp [hws])]
    simp only [(digit_ne_sign c hc).1, (digit_ne_sign c hc).2, if_false]
    rw [← hd, hv]

theorem parseInt_of_integerNumeral (text : String) (z : Int) (h : IntegerNumeral text z)
    (hsafe : z.natAbs ≤ 2 ^ 53) :
    parseInt text = .finite z 0 := by
  obtain ⟨digits, n, hnum, ⟨rfl, rfl⟩ | ⟨rfl, rfl⟩⟩ := h
  · rw [parseInt_of_numeral _ n hnum, roundFraction_of_safe _ _ (by simpa using hsafe)]
    rfl
  · have hv := integerOfDigits_of_numeral true digits n hnum
    unfold parseInt
    have hdata : ("-" ++ digits).data = '-' :: digits.data := by
      simp [String.data_append]
    rw [hdata, List.dropWhile_cons_of_neg (by decide)]
    simp only [if_true]
    rw [hv, roundFraction_of_safe _ _ (by simpa using hsafe)]
    rfl

theorem parseInt_of_noLeadingInteger (text : String) (h : NoLeadingInteger text) :
    parseInt text = .nan := by
  have hsplit := List.takeWhile_append_dropWhile isJsWhiteSpace text.data
  have hws : ∀ c ∈ text.data.takeWhile isJsWhiteSpace, isJsWhiteSpace c = true :=
    fun c hc => List.mem_takeWhile_imp hc
  have hdig : ∀ l : List Char, ∀ c ∈ l.takeWhile isDecimalDigit, isDecimalDigit c = true :=
    fun l c hc => List.mem_takeWhile_imp hc
  have key : ∀ (negative : Bool) (sign rest : List Char),
      text.data.dropWhile isJsWhiteSpace = sign ++ rest →
      (sign = [] ∨ sign = ['+'] ∨ sign = ['-']) →
      integerOfDigits negative (rest.takeWhile isDecimalDigit) = .nan := by
    intro negative sign rest hrest hsign
    have hnil := h (text.data.takeWhile isJsWhiteSpace) sign (rest.takeWhile isDecimalDigit)
      (rest.dropWhile isDecimalDigit)
      (by rw [List.append_assoc, List.append_assoc, List.takeWhile_append_dropWhile,
            ← hrest, hsplit])
      hws hsign (hdig rest)
    simp [integerOfDigits, hnil]
  unfold parseInt
  cases hd : text.data.dropWhile isJsWhiteSpace with
  | nil => rfl
  | cons c rest =>
    simp only
    by_cases hm : c = '-'
    · subst hm
      rw [if_pos rfl, key true ['-'] rest (by simp [hd]) (Or.inr (Or.inr rfl))]
    · rw [if_neg hm]
      by_cases hp : c = '+'
      · subst hp
        rw [if_pos rfl, key false ['+'] rest (by simp [hd]) (Or.inr (Or.inl rfl))]
      · rw [if_neg hp, key false [] (c :: rest) (by simp [hd]) (Or.inl rfl)]

/-! ## Reviews: rejection of page and limit -/

theorem noLeadingInteger_abc : NoLeadingInteger "abc" := by
  intro ws sign digits rest heq hws hsign hdig
  have hdata : "abc".data = ['a', 'b', 'c'] := rfl
  rw [hdata] at heq
  cases ws with
  | cons c ws1 =>
    simp only [List.cons_append, List.cons.injEq] at heq
    obtain ⟨rfl, -⟩ := heq
    exact absurd (hws 'a' (List.mem_cons_self _ _)) (by decide)
  | nil =>
    rcases hsign with rfl | rfl | rfl
    · cases digits with
      | nil => rfl
      | cons d ds =>
        simp only [List.nil_append, List.cons_append, List.cons.injEq] at heq
        obtain ⟨rfl, -⟩ := heq
        exact absurd (hdig 'a' (List.mem_cons_self _ _)) (by decide)
    · simp at heq
    · simp at heq

/-- C9, counterexample: `page=2.5` and `limit=5abc` are not decimal integers, yet
the handler reads them as 2 and 5, sends both statements to the store and
answers 200. -/
theorem getReviews_accepts_non_integer :
    (getReviews stableOrder emptyStore 1 ⟨some (.str "2.5"), none⟩).sent =
      [.selectPage 1 10 10, .countReviews 1] ∧
    (getReviews stableOrder emptyStore 1 ⟨some (.str "2.5"), none⟩).response.status = 200 ∧
    (getReviews stableOrder emptyStore 1 ⟨none, some (.str "5abc")⟩).sent =
      [.selectPage 1 5 0, .countReviews 1] ∧
    (getReviews stableOrder emptyStore 1 ⟨none, some (.str "5abc")⟩).response.status = 200 := by
  refine ⟨by decide, by decide, by decide, by decide⟩

/-- C9, as amended: when `page` or `limit` is supplied and has no leading integer
(no decimal digit after optional white space and an optional sign, as in
`abc`), the handler answers 400 and sends no statement to the store, whatever
the store and its ordering. -/
theorem getReviews_rejects_without_leading_integer
    (orderBy : List (Review × User) → List (Review × User)) (s : Store) (book_id : Int)
    (q : ReviewsQuery)
    (h : (∃ w, q.page = some w ∧ NoLeadingInteger (render (some w))) ∨
      (∃ w, q.limit = some w ∧ NoLeadingInteger (render (some w)))) :
    (getReviews orderBy s book_id q).sent = [] ∧
      (getReviews orderBy s book_id q).response.status = 400 := by
  unfold getReviews
  rcases h with ⟨w, hw, hno⟩ | ⟨w, hw, hno⟩
  · have hp : parseInt (textOrDefault q.page 1) = .nan := by
      rw [hw]; exact parseInt_of_noLeadingInteger _ hno
    simp [hp, isNaN]
  · have hl : parseInt (textOrDefault q.limit 10) = .nan := by
      rw [hw]; exact parseInt_of_noLeadingInteger _ hno
    simp [hl, isNaN]

/-- Witness for the amended C9: `page=abc`. -/
theorem getReviews_rejects_without_leading_integer_witness :
    (getReviews stableOrder twelveReviewStore 1 ⟨some (.str "abc"), none⟩).sent = [] ∧
    (getReviews stableOrder twelveReviewStore 1
      ⟨some (.str "abc"), none⟩).response.status = 400 :=
  getReviews_rejects_without_leading_integer stableOrder twelveReviewStore 1
    ⟨some (.str "abc"), none⟩ (Or.inl ⟨.str "abc", rfl, noLeadingInteger_abc⟩)

/-! ## Reviews: the like counter -/

set_option maxRecDepth 100000 in
/-- C10, counterexample: an identifier of four hundred digits is an integer, but
`parseInt` reads it as `Infinity`, the store rejects the update and the handler
answers 500; and the identifier 9007199254740993 is read as 9007199254740992, so
that the update is sent for another review. -/
theorem likeReview_large_identifier :
    (∀ c ∈ fourHundredNines.data, isDecimalDigit c = true) ∧
    parseInt fourHundredNines = .infinity false ∧
    (likeReview twelveReviewStore fourHundredNines).2.sent = [.likeUpdate (.infinity false)] ∧
    (likeReview twelveReviewStore fourHundredNines).2.response.status = 500 ∧
    (likeReview twelveReviewStore "9007199254740993").2.sent =
      [.likeUpdate 9007199254740992] := by
  refine ⟨by decide, by decide, by decide, by decide, by decide⟩

/-- C10, as amended: for every store and every review identifier given as an
integer numeral of magnitude at most `2 ^ 53`, the like handler sends the one
update for that identifier and answers 200 with the success body; every review
with that identifier has its like counter raised by exactly 1 and nothing else
changes, neither another review nor another field nor another table; when no
review has the identifier the reviews are unchanged; and a second like of the
same identifier is answered the same and raises the counter by exactly 2 in
all. -/
theorem likeReview_frame (s : Store) (text : String) (id : Int)
    (hid : IntegerNumeral text id) (hsafe : id.natAbs ≤ 2 ^ 53) :
    (likeReview s text).2.sent = [.likeUpdate (.finite id 0)] ∧
    (likeReview s text).2.response.status = 200 ∧
    (likeReview s text).2.response.body = .success ∧
    (likeReview s text).1.userz = s.userz ∧
    (likeReview s text).1.userz_id_seq = s.userz_id_seq ∧
    (likeReview s text).1.books = s.books ∧
    List.Forall₂
      (fun old new =>
        new = if old.review_id = id then { old with likes := old.likes + 1 } else old)
      s.reviews (likeReview s text).1.reviews ∧
    ((∀ r ∈ s.reviews, r.review_id ≠ id) → (likeReview s text).1.reviews = s.reviews) ∧
    (likeReview (likeReview s text).1 text).2.response.status = 200 ∧
    (likeReview (likeReview s text).1 text).2.response.body = .success ∧
    List.Forall₂
      (fun old new =>
        new = if old.review_id = id then { old with likes := old.likes + 2 } else old)
      s.reviews (likeReview (likeReview s text).1 text).1.reviews := by
  have hp : parseInt text = .finite id 0 := parseInt_of_integerNumeral text id hid hsafe
  have hrun : ∀ s0 : Store, likeReview s0 text =
      (({ s0 with
          reviews := List.map
            (fun r => if r.review_id = id then { r with likes := r.likes + 1 } else r)
            s0.reviews } : Store),
        ⟨[.likeUpdate (.finite id 0)], ⟨200, .success⟩⟩) := by
    intro s0
    simp only [likeReview, hp, isNaN, likeUpdate]
    rfl
  rw [hrun s, hrun]
  refine ⟨rfl, rfl, rfl, rfl, rfl, rfl, ?_, ?_, rfl, rfl, ?_⟩
  · simp only [List.forall₂_map_right_iff, List.forall₂_same]
    intro r _
    trivial
  · intro hnone
    simp only
    conv_rhs => rw [← List.map_id s.reviews]
    apply List.map_congr_left
    intro r hr
    simp [hnone r hr]
  · simp only [List.map_map, List.forall₂_map_right_iff, List.forall₂_same]
    intro r _
    by_cases hr : r.review_id = id
    · simp [hr, add_assoc]
    · simp [hr]

/-- Witness for the amended C10: a like of review 2 in the store of twelve
reviews. -/
theorem likeReview_frame_witness :
    (likeReview twelveReviewStore "2").2.sent = [.likeUpdate (.finite 2 0)] ∧
    (likeReview twelveReviewStore "2").2.response.status = 200 ∧
    (likeReview twelveReviewStore "2").2.response.body = .success ∧
    (likeReview twelveReviewStore "2").1.userz = twelveReviewStore.userz ∧
    (likeReview twelveReviewStore "2").1.userz_id_seq = twelveReviewStore.userz_id_seq ∧
    (likeReview twelveReviewStore "2").1.books = twelveReviewStore.books ∧
    List.Forall₂
      (fun old new =>
        new = if old.review_id = 2 then { old with likes := old.likes + 1 } else old)
      twelveReviewStore.reviews (likeReview twelveReviewStore "2").1.reviews ∧
    ((∀ r ∈ twelveReviewStore.reviews, r.review_id ≠ 2) →
      (likeReview twelveReviewStore "2").1.reviews = twelveReviewStore.reviews) ∧
    (likeReview (likeReview twelveReviewStore "2").1 "2").2.response.status = 200 ∧
    (likeReview (likeReview twelveReviewStore "2").1 "2").2.response.body = .success ∧
    List.Forall₂
      (fun old new =>
        new = if old.review_id = 2 then { old with likes := old.likes + 2 } else old)
      twelveReviewStore.reviews (likeReview (likeReview twelveReviewStore "2").1 "2").1.reviews :=
  likeReview_frame twelveReviewStore "2" 2
    ⟨"2", 2, ⟨by decide, by decide, by decide⟩, Or.inl ⟨rfl, rfl⟩⟩ (by decide)

/-! ## Reviews: the page and the total -/

theorem join_filter_book (users : List User) (reviews : List Review) (book_id : Int)
    (dflt : User)
    (h : ∀ r ∈ reviews, r.book_id = book_id →
      ∃ u, users.filter (fun u => r.user_id = u.id) = [u]) :
    (reviews.flatMap (fun r =>
        (users.filter (fun u => r.user_id = u.id)).map (fun u => (r, u)))).filter
        (fun p => p.1.book_id = book_id) =
      (reviews.filter (fun r => r.book_id = book_id)).map
        (fun r => (r, (users.filter (fun u => r.user_id = u.id)).headD dflt)) := by
  induction reviews with
  | nil => rfl
  | cons r rs ih =>
    have ih1 := ih (fun x hx => h x (List.mem_cons_of_mem _ hx))
    rw [List.flatMap_cons, List.filter_append, ih1]
    by_cases hb : r.book_id = book_id
    · obtain ⟨u, hu⟩ := h r (List.mem_cons_self _ _) hb
      have hhd : (users.filter (fun u => r.user_id = u.id)).headD dflt = u := by
        rw [hu]; rfl
      rw [List.filter_cons_of_pos (by simpa using hb), List.map_cons, hhd, hu]
      simp [hb]
    · simp [hb, List.filter_map, Function.comp_def]

theorem rowCount_of_safe (n : Nat) (h : n ≤ 2 ^ 53) :
    rowCount (.finite (n : Int) 0) = some n := by
  have h63 : (n : Int) < 2 ^ 63 := by
    have hlt : (2 : Nat) ^ 53 < 2 ^ 63 := by norm_num
    exact_mod_cast lt_of_le_of_lt h hlt
  rw [rowCount, if_pos ⟨Int.natCast_nonneg n, h63⟩, Int.toNat_ofNat]

theorem jsSub_one_of_safe (page : Nat) (hpos : 1 ≤ page) (h : page ≤ 2 ^ 53) :
    jsSub (.finite (page : Int) 0) 1 = .finite ((page - 1 : Nat) : Int) 0 := by
  have hone : (1 : JsNumber) = .finite 1 0 := rfl
  have hdiff : (page : Int) * 2 ^ 0 - 1 * 2 ^ 0 = ((page - 1 : Nat) : Int) := by
    rw [Nat.cast_sub hpos]; simp
  rw [hone, jsSub, hdiff, Int.natAbs_ofNat]
  have hneg : decide (((page - 1 : Nat) : Int) < 0) = false :=
    decide_eq_false (not_lt.mpr (Int.natCast_nonneg _))
  rw [hneg, show (2 : Nat) ^ (0 + 0) = 1 from rfl, roundFraction_of_safe _ _ (by omega)]
  rfl

theorem jsMul_of_safe (a b : Nat) (h : a * b ≤ 2 ^ 53) :
    jsMul (.finite (a : Int) 0) (.finite (b : Int) 0) = .finite ((a * b : Nat) : Int) 0 := by
  have hprod : (a : Int) * (b : Int) = ((a * b : Nat) : Int) := by push_cast; rfl
  rw [jsMul, hprod, Int.natAbs_ofNat]
  have hneg : decide (((a * b : Nat) : Int) < 0) = false :=
    decide_eq_false (not_lt.mpr (Int.natCast_nonneg _))
  rw [hneg, show (2 : Nat) ^ (0 + 0) = 1 from rfl, roundFraction_of_safe _ _ h]
  rfl

theorem parseInt_of_givenAs (v : Option QVal) (dflt n : Nat) (h : GivenAs v dflt n)
    (hsafe : n ≤ 2 ^ 53)
    (hd : parseInt (toString dflt) = .finite (dflt : Int) 0) :
    parseInt (textOrDefault v dflt) = .finite (n : Int) 0 := by
  rcases h with ⟨rfl, rfl⟩ | ⟨text, rfl, hnum⟩
  · exact hd
  · rw [textOrDefault, render, parseInt_of_numeral text n hnum, roundFraction_of_safe _ _ hsafe]
    rfl

/-- The stable sort is one of the orderings a store may use. -/
theorem stableOrder_ordersByCreatedAtDesc : OrdersByCreatedAtDesc stableOrder := by
  intro rows
  constructor
  · exact List.perm_insertionSort _ _
  · haveI : IsTotal (Review × User) (fun a b => b.1.created_at ≤ a.1.created_at) :=
      ⟨fun a b => le_total b.1.created_at a.1.created_at⟩
    haveI : IsTrans (Review × User) (fun a b => b.1.created_at ≤ a.1.created_at) :=
      ⟨fun _ _ _ hab hbc => le_trans hbc hab⟩
    exact List.sorted_insertionSort _ _

/-- The ranking of a book's reviews lists exactly the reviews of that book, each
as often as the table holds it, latest first. -/
theorem rankedReviews_sorted_perm (s : Store) (book_id : Int) :
    (rankedReviews s book_id).Perm (s.reviews.filter (fun r => r.book_id = book_id)) ∧
    (rankedReviews s book_id).Pairwise (fun a b => b.created_at ≤ a.created_at) := by
  constructor
  · exact List.perm_insertionSort _ _
  · haveI : IsTotal Review (fun a b => b.created_at ≤ a.created_at) :=
      ⟨fun a b => le_total b.created_at a.created_at⟩
    haveI : IsTrans Review (fun a b => b.created_at ≤ a.created_at) :=
      ⟨fun _ _ _ hab hbc => le_trans hbc hab⟩
    exact List.sorted_insertionSort _ _

/-- C8, counterexample.  With `page=9007199254740993` and `limit=1` the handler
sends `OFFSET 9007199254740991`, which is not `(page - 1) * limit`: the page is
read as the double 9007199254740992.  And for a book whose one review has no
author row, the first page holds no review although the book has a review of
rank 1 and `totalReviews` is 1. -/
theorem getReviews_page_fails :
    (getReviews stableOrder twelveReviewStore 1
        ⟨some (.str "9007199254740993"), some (.str "1")⟩).sent =
      [.selectPage 1 1 9007199254740991, .countReviews 1] ∧
    (9007199254740993 - 1) * 1 ≠ 9007199254740991 ∧
    (orphanReviewStore.reviews.filter (fun r => r.book_id = 1)).length = 1 ∧
    (getReviews stableOrder orphanReviewStore 1 ⟨none, none⟩).sent =
      [.selectPage 1 10 0, .countReviews 1] ∧
    (getReviews stableOrder orphanReviewStore 1 ⟨none, none⟩).response.body =
      .reviews [] 1 := by
  refine ⟨by decide, by decide, by decide, by decide, by rfl⟩

/-- C8, as amended: for every book, every page of at least 1 and every limit
given as decimal numerals (page 1 and limit 10 when absent) with `page`,
`limit` and `(page - 1) * limit` at most `2 ^ 53`, in a store where every
review of the book has exactly one author row and whose sort orders by creation
time descending, the handler sends the page statement with `LIMIT = limit` and
`OFFSET = (page - 1) * limit` and then the count statement, and answers 200
with the reviews at ranks `offset + 1` to `offset + limit` of a ranking of the
book's reviews by creation time descending (the store's, which is the only
one when the times differ), each with its own fields and its author's name and
picture, and with `totalReviews` the number of all reviews of the book. -/
theorem getReviews_page (orderBy : List (Review × User) → List (Review × User))
    (s : Store) (book_id : Int) (q : ReviewsQuery) (page limit : Nat)
    (horder : OrdersByCreatedAtDesc orderBy)
    (hpage : GivenAs q.page 1 page) (hlimit : GivenAs q.limit 10 limit) (hpos : 1 ≤ page)
    (hsafe : page ≤ 2 ^ 53 ∧ limit ≤ 2 ^ 53 ∧ (page - 1) * limit ≤ 2 ^ 53)
    (hauthor : ∀ r ∈ s.reviews, r.book_id = book_id →
      ∃ u, s.userz.filter (fun u => r.user_id = u.id) = [u]) :
    (getReviews orderBy s book_id q).sent =
      [.selectPage book_id (.finite (limit : Int) 0)
          (.finite (((page - 1) * limit : Nat) : Int) 0),
        .countReviews book_id] ∧
    (getReviews orderBy s book_id q).response.status = 200 ∧
    ∃ (ranked : List Review) (rows : List ReviewRow),
      ranked.Perm (s.reviews.filter (fun r => r.book_id = book_id)) ∧
      ranked.Pairwise (fun a b => b.created_at ≤ a.created_at) ∧
      (getReviews orderBy s book_id q).response.body =
        .reviews rows (s.reviews.filter (fun r => r.book_id = book_id)).length ∧
      List.Forall₂
        (fun r row =>
          row.review_id = r.review_id ∧ row.content = r.content ∧
          row.created_at = r.created_at ∧ row.likes = r.likes ∧
          ∃ u ∈ s.userz, u.id = r.user_id ∧ row.username = u.username ∧
            row.profile_pic_url = u.profile_pic_url)
        ((ranked.drop ((page - 1) * limit)).take limit) rows := by
  obtain ⟨hsp, hsl, hso⟩ := hsafe
  have hp := parseInt_of_givenAs q.page 1 page hpage hsp (by decide)
  have hl := parseInt_of_givenAs q.limit 10 limit hlimit hsl (by decide)
  have hoff : jsMul (jsSub (.finite (page : Int) 0) 1) (.finite (limit : Int) 0) =
      .finite (((page - 1) * limit : Nat) : Int) 0 := by
    rw [jsSub_one_of_safe page hpos hsp, jsMul_of_safe _ _ hso]
  have hjoin := join_filter_book s.userz s.reviews book_id ⟨0, none, none, none, none, none⟩
    hauthor
  obtain ⟨joined, hjoined⟩ : ∃ joined : List (Review × User),
      joined = (s.reviews.filter (fun r => r.book_id = book_id)).map
        (fun r => (r, (s.userz.filter (fun u => r.user_id = u.id)).headD
          ⟨0, none, none, none, none, none⟩)) := ⟨_, rfl⟩
  rw [← hjoined] at hjoin
  have hsel : selectReviewsPage orderBy s book_id (.finite (limit : Int) 0)
      (.finite (((page - 1) * limit : Nat) : Int) 0) =
      .ok ((((orderBy joined).drop ((page - 1) * limit)).take limit).map
        (fun p => reviewRow p.1 p.2)) := by
    rw [selectReviewsPage, rowCount_of_safe _ hsl, rowCount_of_safe _ hso]
    simp only [joinReviewsUsers, hjoin]
  have hrun : getReviews orderBy s book_id q =
      ⟨[.selectPage book_id (.finite (limit : Int) 0)
          (.finite (((page - 1) * limit : Nat) : Int) 0), .countReviews book_id],
        ⟨200, .reviews
          ((((orderBy joined).drop ((page - 1) * limit)).take limit).map
            (fun p => reviewRow p.1 p.2))
          (countReviews s book_id)⟩⟩ := by
    simp only [getReviews, hp, hl, hoff, hsel, isNaN]
    rfl
  rw [hrun]
  refine ⟨rfl, rfl, (orderBy joined).map Prod.fst, _, ?_, ?_, rfl, ?_⟩
  · have hfst : joined.map Prod.fst = s.reviews.filter (fun r => r.book_id = book_id) := by
      rw [hjoined, List.map_map]
      exact List.map_id _
    have hperm := ((horder joined).1).map Prod.fst
    rw [hfst] at hperm
    exact hperm
  · exact List.pairwise_map.mpr (horder joined).2
  · rw [← List.map_drop, ← List.map_take, List.forall₂_map_left_iff,
      List.forall₂_map_right_iff, List.forall₂_same]
    intro p hp2
    have hpl := (horder joined).1.subset (List.mem_of_mem_drop (List.mem_of_mem_take hp2))
    rw [hjoined] at hpl
    obtain ⟨r, hr, rfl⟩ := List.mem_map.mp hpl
    obtain ⟨hrs, hrb⟩ := List.mem_filter.mp hr
    obtain ⟨u, hu⟩ := hauthor r hrs (by simpa using hrb)
    have hin : u ∈ s.userz.filter (fun u => r.user_id = u.id) := by
      rw [hu]; exact List.mem_singleton_self u
    obtain ⟨hus, hid⟩ := List.mem_filter.mp hin
    refine ⟨rfl, rfl, rfl, rfl, u, hus, ?_, ?_, ?_⟩
    · exact (of_decide_eq_true hid).symm
    · simp [hu, reviewRow]
    · simp [hu, reviewRow]

theorem twelveReviewStore_authors :
    ∀ r ∈ twelveReviewStore.reviews, r.book_id = 1 →
      ∃ u, twelveReviewStore.userz.filter (fun u => r.user_id = u.id) = [u] := by
  have hlen : ∀ r ∈ twelveReviewStore.reviews,
      (twelveReviewStore.userz.filter (fun u => r.user_id = u.id)).length = 1 := by decide
  intro r hr _
  exact List.length_eq_one.mp (hlen r hr)

/-- Witness for the amended C8: the example of the specification, `page=2` and
`limit=5` over the twelve reviews of book 1, with the stable sort as the store's
ordering. -/
theorem getReviews_page_witness :
    (getReviews stableOrder twelveReviewStore 1 ⟨some (.str "2"), some (.str "5")⟩).sent =
      [.selectPage 1 (.finite ((5 : Nat) : Int) 0) (.finite (((2 - 1) * 5 : Nat) : Int) 0),
        .countReviews 1] ∧
    (getReviews stableOrder twelveReviewStore 1
      ⟨some (.str "2"), some (.str "5")⟩).response.status = 200 ∧
    ∃ (ranked : List Review) (rows : List ReviewRow),
      ranked.Perm (twelveReviewStore.reviews.filter (fun r => r.book_id = 1)) ∧
      ranked.Pairwise (fun a b => b.created_at ≤ a.created_at) ∧
      (getReviews stableOrder twelveReviewStore 1
          ⟨some (.str "2"), some (.str "5")⟩).response.body =
        .reviews rows (twelveReviewStore.reviews.filter (fun r => r.book_id = 1)).length ∧
      List.Forall₂
        (fun r row =>
          row.review_id = r.review_id ∧ row.content = r.content ∧
          row.created_at = r.created_at ∧ row.likes = r.likes ∧
          ∃ u ∈ twelveReviewStore.userz, u.id = r.user_id ∧ row.username = u.username ∧
            row.profile_pic_url = u.profile_pic_url)
        ((ranked.drop ((2 - 1) * 5)).take 5) rows :=
  getReviews_page stableOrder twelveReviewStore 1 ⟨some (.str "2"), some (.str "5")⟩ 2 5
    stableOrder_ordersByCreatedAtDesc
    (Or.inr ⟨"2", rfl, by decide, by decide, by decide⟩)
    (Or.inr ⟨"5", rfl, by decide, by decide, by decide⟩)
    (by decide) ⟨by norm_num, by norm_num, by norm_num⟩ twelveReviewStore_authors

/-- The example of the specification, evaluated with the stable sort: `page=2`,
`limit=5` over twelve reviews with different times gives the reviews ranked 6 to
10 (written at the times 107 down to 103) and the total 12. -/
theorem getReviews_example :
    (getReviews stableOrder twelveReviewStore 1 ⟨some (.str "2"), some (.str "5")⟩).sent =
      [.selectPage 1 5 5, .countReviews 1] ∧
    (getReviews stableOrder twelveReviewStore 1
        ⟨some (.str "2"), some (.str "5")⟩).response.body =
      .reviews
        [ ⟨7, some "r7", 107, some "alice", none, 2⟩,
          ⟨6, some "r6", 106, some "bob", some "https://img.example.org/bob.png", 0⟩,
          ⟨5, some "r5", 105, some "alice", none, 0⟩,
          ⟨4, some "r4", 104, some "bob", some "https://img.example.org/bob.png", 1⟩,
          ⟨3, some "r3", 103, some "alice", none, 0⟩ ] 12 :=
  ⟨by decide, by rfl⟩

/-! ## Search and advanced search: the statement built -/

theorem infinity_not_at_digit (c : Char) (rest : List Char) (hc : isDecimalDigit c = true) :
    "Infinity".data.isPrefixOf (c :: rest) = false := by
  have hI : ('I' == c) = false := by
    rw [beq_eq_false_iff_ne]
    rintro rfl
    exact absurd hc (by decide)
  have hdata : "Infinity".data = 'I' :: "nfinity".data := rfl
  rw [hdata, List.isPrefixOf, hI]
  rfl

theorem unsignedDecimalLiteral_of_digits (cs : List Char) (hne : cs ≠ [])
    (hall : ∀ c ∈ cs, isDecimalDigit c = true) :
    unsignedDecimalLiteral cs = some (.decimal cs [] 0) := by
  have htake : cs.takeWhile isDecimalDigit = cs := List.takeWhile_eq_self_iff.mpr hall
  have hdrop : cs.dropWhile isDecimalDigit = [] := List.dropWhile_eq_nil_iff.mpr hall
  have hinf : "Infinity".data.isPrefixOf cs = false := by
    cases cs with
    | nil => exact absurd rfl hne
    | cons c rest => exact infinity_not_at_digit c rest (hall c (List.mem_cons_self _ _))
  unfold unsignedDecimalLiteral
  simp [hinf, htake, hdrop, hne, exponentValue]

theorem unsignedDecimalLiteral_of_fraction (ip fp : List Char) (hip : ip ≠ [])
    (hiall : ∀ c ∈ ip, isDecimalDigit c = true)
    (hfall : ∀ c ∈ fp, isDecimalDigit c = true) :
    unsignedDecimalLiteral (ip ++ '.' :: fp) = some (.decimal ip fp 0) := by
  have hdot : ¬ (isDecimalDigit '.' = true) := by decide
  have htake : (ip ++ '.' :: fp).takeWhile isDecimalDigit = ip := by
    rw [List.takeWhile_append_of_pos hiall, List.takeWhile_cons_of_neg hdot, List.append_nil]
  have hdrop : (ip ++ '.' :: fp).dropWhile isDecimalDigit = '.' :: fp := by
    rw [List.dropWhile_append_of_pos hiall, List.dropWhile_cons_of_neg hdot]
  have hftake : fp.takeWhile isDecimalDigit = fp := List.takeWhile_eq_self_iff.mpr hfall
  have hfdrop : fp.dropWhile isDecimalDigit = [] := List.dropWhile_eq_nil_iff.mpr hfall
  have hinf : "Infinity".data.isPrefixOf (ip ++ '.' :: fp) = false := by
    cases ip with
    | nil => exact absurd rfl hip
    | cons c rest => exact infinity_not_at_digit c _ (hiall c (List.mem_cons_self _ _))
  unfold unsignedDecimalLiteral
  rw [hinf, hdrop, htake]
  simp [hftake, hfdrop, hip, exponentValue]

/-- A price written as a decimal number is read by `parseFloat` as the double
nearest to that number. -/
theorem parseFloat_of_decimalValue (text : String) (p d : Nat) (h : DecimalValue text p d) :
    parseFloat text = roundFraction false p d := by
  rcases h with ⟨⟨hne, hall, hval⟩, rfl⟩ | ⟨ip, fp, hip, hfp, hiall, hfall, hdata, hval, rfl⟩
  · have hlit := unsignedDecimalLiteral_of_digits text.data hne hall
    unfold parseFloat
    cases hd : text.data with
    | nil => exact absurd hd hne
    | cons c rest =>
      have hc : isDecimalDigit c = true := hall c (by rw [hd]; exact List.mem_cons_self _ _)
      rw [List.dropWhile_cons_of_neg (by simp [isJsWhiteSpace_of_digit c hc])]
      rw [hd] at hlit
      simp only [(digit_ne_sign c hc).1, (digit_ne_sign c hc).2, if_false, hlit]
      rw [← hd, literalValue, decimalToNumber, digitsValue_eq_ofDigits]
      simp [hval]
  · have hlit := unsignedDecimalLiteral_of_fraction ip fp hip hiall hfall
    unfold parseFloat
    cases hi : ip with
    | nil => exact absurd hi hip
    | cons c rest =>
      have hc : isDecimalDigit c = true := hiall c (by rw [hi]; exact List.mem_cons_self _ _)
      rw [hi] at hdata hlit
      rw [hdata, List.cons_append,
        List.dropWhile_cons_of_neg (by simp [isJsWhiteSpace_of_digit c hc])]
      rw [List.cons_append] at hlit
      simp only [(digit_ne_sign c hc).1, (digit_ne_sign c hc).2, if_false, hlit]
      have hlen : ¬ (0 : Int) ≤ 0 - (fp.length : Int) := by
        have : 0 < fp.length := List.length_pos.mpr hfp
        omega
      rw [literalValue, decimalToNumber, if_neg hlen, digitsValue_eq_ofDigits, ← hi, hval]
      simp

theorem queryClause_one :
    " AND (title ILIKE " ++ placeholder 1 ++ " OR author ILIKE " ++ placeholder 1 ++
        " OR genre ILIKE " ++ placeholder 1 ++ ")" =
      " AND (title ILIKE $1 OR author ILIKE $1 OR genre ILIKE $1)" := by
  decide

theorem parseFloat_of_priceBound (v : Option QVal) (bound : JsNumber)
    (h : PriceBound v bound) (hv : truthy v = true) : parseFloat (render v) = bound := by
  obtain ⟨p, d, hdec, rfl⟩ := h hv
  exact parseFloat_of_decimalValue _ p d hdec

theorem buildSearch_eq_spec (q : SearchQuery) (lo hi : JsNumber)
    (hlo : truthy q.minPrice = true → parseFloat (render q.minPrice) = lo)
    (hhi : truthy q.maxPrice = true → parseFloat (render q.maxPrice) = hi) :
    buildSearch q = specStatement (specSearchCriteria q lo hi) := by
  unfold buildSearch specStatement specSearchCriteria
  cases h1 : truthy q.query <;> cases h2 : truthy q.genre <;> cases h3 : truthy q.author <;>
    cases h4 : truthy q.minPrice <;> cases h5 : truthy q.maxPrice <;>
    simp [addClause, h1, h2, h3, h4, h5, hlo, hhi, List.enumFrom, queryClause_one]

theorem buildAdvancedSearch_eq_spec (q : AdvancedQuery) (lo hi : JsNumber)
    (hlo : truthy q.minPrice = true → parseFloat (render q.minPrice) = lo)
    (hhi : truthy q.maxPrice = true → parseFloat (render q.maxPrice) = hi) :
    buildAdvancedSearch q = specStatement (specAdvancedCriteria q lo hi) := by
  unfold buildAdvancedSearch specStatement specAdvancedCriteria
  cases h1 : truthy q.title <;> cases h2 : truthy q.author <;> cases h3 : truthy q.genre <;>
    cases h4 : truthy q.minPrice <;> cases h5 : truthy q.maxPrice <;>
    simp [addClause, h1, h2, h3, h4, h5, hlo, hhi, List.enumFrom]

/-- The placeholders of the advanced search statement are `$1` to `$n` in this
order, `n` being the length of the parameter list. -/
theorem buildAdvancedSearch_placeholders (q : AdvancedQuery) :
    placeholdersOf (buildAdvancedSearch q).1 =
      List.range' 1 (buildAdvancedSearch q).2.length := by
  unfold buildAdvancedSearch
  cases h1 : truthy q.title <;> cases h2 : truthy q.author <;> cases h3 : truthy q.genre <;>
    cases h4 : truthy q.minPrice <;> cases h5 : truthy q.maxPrice <;>
    simp only [addClause, h1, h2, h3, h4, h5, if_true, Bool.false_eq_true, if_false,
      List.length_append, List.length_cons, List.length_nil, List.nil_append] <;>
    decide

/-- The placeholders of the search statement, repetitions inside the free-text
clause removed, are `$1` to `$n` in this order, `n` being the length of the
parameter list. -/
theorem buildSearch_placeholders (q : SearchQuery) :
    (placeholdersOf (buildSearch q).1).dedup = List.range' 1 (buildSearch q).2.length := by
  unfold buildSearch
  cases h1 : truthy q.query <;> cases h2 : truthy q.genre <;> cases h3 : truthy q.author <;>
    cases h4 : truthy q.minPrice <;> cases h5 : truthy q.maxPrice <;>
    simp only [addClause, h1, h2, h3, h4, h5, if_true, Bool.false_eq_true, if_false,
      List.length_append, List.length_cons, List.length_nil, List.nil_append] <;>
    decide

/-- C11, counterexample: the value bound for a present price criterion is not the
criterion's value but what `parseFloat` makes of it.  For `minPrice=abc` both
handlers bind `NaN`, and for `minPrice=12abc` they bind 12. -/
theorem search_binds_parsed_price :
    (searchBooks noRows ⟨none, none, none, some (.str "abc"), none⟩).sent =
      [("SELECT * FROM books WHERE 1=1 AND price >= $1", [.num .nan])] ∧
    (searchBooks noRows ⟨none, none, none, some (.str "12abc"), none⟩).sent =
      [("SELECT * FROM books WHERE 1=1 AND price >= $1", [.num 12])] ∧
    (advancedSearch noRows ⟨none, none, none, some (.str "abc"), none⟩).sent =
      [("SELECT * FROM books WHERE 1=1 AND price >= $1", [.num .nan])] ∧
    (advancedSearch noRows ⟨none, none, none, some (.str "12abc"), none⟩).sent =
      [("SELECT * FROM books WHERE 1=1 AND price >= $1", [.num 12])] := by
  refine ⟨by decide, by decide, by decide, by decide⟩

/-- C11, as amended: in `GET /api/search` and `GET /api/advanced-search`, for every
request in which each present price bound is a decimal number, the one
statement sent to the store is the statement of the specification: the base
text `SELECT * FROM books WHERE 1=1` followed by one AND-clause per present
criterion in the handler's order, the clause of the i-th present criterion
written with placeholder `$i`, and the parameter list holding at position i the
value of the i-th present criterion (between two `%` for the substring criteria,
as the double nearest to the decimal number for the price bounds); the
placeholders of the text are `$1` to `$n` for `n` parameters.  With no criterion
present the statement is the base text with an empty parameter list, and the
handler answers 200 with exactly the rows the store gives for it, that is every
row of the table. -/
theorem search_statement_as_specified
    (dbAny : String → List Param → Except String (List BookRow))
    (q : SearchQuery) (a : AdvancedQuery) (qlo qhi alo ahi : JsNumber)
    (hqlo : PriceBound q.minPrice qlo) (hqhi : PriceBound q.maxPrice qhi)
    (halo : PriceBound a.minPrice alo) (hahi : PriceBound a.maxPrice ahi) :
    ((searchBooks dbAny q).sent = [specStatement (specSearchCriteria q qlo qhi)] ∧
      (placeholdersOf (specStatement (specSearchCriteria q qlo qhi)).1).dedup =
        List.range' 1 (specStatement (specSearchCriteria q qlo qhi)).2.length ∧
      (truthy q.query = false → truthy q.genre = false → truthy q.author = false →
        truthy q.minPrice = false → truthy q.maxPrice = false →
        (searchBooks dbAny q).sent = [("SELECT * FROM books WHERE 1=1", [])] ∧
        ∀ books, dbAny "SELECT * FROM books WHERE 1=1" [] = .ok books →
          (searchBooks dbAny q).response.status = 200 ∧
          (searchBooks dbAny q).response.body = .books books)) ∧
    ((advancedSearch dbAny a).sent = [specStatement (specAdvancedCriteria a alo ahi)] ∧
      placeholdersOf (specStatement (specAdvancedCriteria a alo ahi)).1 =
        List.range' 1 (specStatement (specAdvancedCriteria a alo ahi)).2.length ∧
      (truthy a.title = false → truthy a.author = false → truthy a.genre = false →
        truthy a.minPrice = false → truthy a.maxPrice = false →
        (advancedSearch dbAny a).sent = [("SELECT * FROM books WHERE 1=1", [])] ∧
        ∀ books, dbAny "SELECT * FROM books WHERE 1=1" [] = .ok books →
          (advancedSearch dbAny a).response.status = 200 ∧
          (advancedSearch dbAny a).response.body = .books books)) := by
  have hq := buildSearch_eq_spec q qlo qhi (parseFloat_of_priceBound _ _ hqlo)
    (parseFloat_of_priceBound _ _ hqhi)
  have ha := buildAdvancedSearch_eq_spec a alo ahi (parseFloat_of_priceBound _ _ halo)
    (parseFloat_of_priceBound _ _ hahi)
  refine ⟨⟨?_, ?_, ?_⟩, ⟨?_, ?_, ?_⟩⟩
  · rw [searchBooks, runQuery_sent, hq]
  · rw [← hq]
    exact buildSearch_placeholders q
  · intro h1 h2 h3 h4 h5
    have hb : buildSearch q = ("SELECT * FROM books WHERE 1=1", []) := by
      simp [buildSearch, addClause, h1, h2, h3, h4, h5]
    refine ⟨by rw [searchBooks, runQuery_sent, hb], ?_⟩
    intro books hbooks
    simp [searchBooks, runQuery, hb, hbooks]
  · rw [advancedSearch, runQuery_sent, ha]
  · rw [← ha]
    exact buildAdvancedSearch_placeholders a
  · intro h1 h2 h3 h4 h5
    have hb : buildAdvancedSearch a = ("SELECT * FROM books WHERE 1=1", []) := by
      simp [buildAdvancedSearch, addClause, h1, h2, h3, h4, h5]
    refine ⟨by rw [advancedSearch, runQuery_sent, hb], ?_⟩
    intro books hbooks
    simp [advancedSearch, runQuery, hb, hbooks]

theorem priceBound_of_absent (bound : JsNumber) : PriceBound none bound :=
  fun h => absurd h (by decide)

/-- Witness for the amended C11: a request to `GET /api/search` with a genre, the
minimum price `12.5` and the maximum price `20`, and a request to
`GET /api/advanced-search` with no criterion over a store client that answers the
base statement with the two sample rows. -/
theorem search_statement_as_specified_witness :
    ((searchBooks (baseStatementClient sampleBooks)
        ⟨none, some (.str "Fantasy"), none, some (.str "12.5"), some (.str "20")⟩).sent =
      [specStatement (specSearchCriteria
        ⟨none, some (.str "Fantasy"), none, some (.str "12.5"), some (.str "20")⟩
        (.finite 25 1) 20)]) ∧
    ((advancedSearch (baseStatementClient sampleBooks) ⟨none, none, none, none, none⟩).sent =
        [("SELECT * FROM books WHERE 1=1", [])] ∧
      (advancedSearch (baseStatementClient sampleBooks)
        ⟨none, none, none, none, none⟩).response.status = 200 ∧
      (advancedSearch (baseStatementClient sampleBooks)
        ⟨none, none, none, none, none⟩).response.body = .books sampleBooks) :=
  have h := search_statement_as_specified (baseStatementClient sampleBooks)
    ⟨none, some (.str "Fantasy"), none, some (.str "12.5"), some (.str "20")⟩
    ⟨none, none, none, none, none⟩ (.finite 25 1) 20 0 0
    (fun _ => ⟨125, 10,
      Or.inr ⟨['1', '2'], ['5'], by decide, by decide, by decide, by decide, rfl,
        by decide, by decide⟩,
      by decide⟩)
    (fun _ => ⟨20, 1, Or.inl ⟨⟨by decide, by decide, by decide⟩, rfl⟩, by decide⟩)
    (priceBound_of_absent 0) (priceBound_of_absent 0)
  ⟨h.1.1,
   ⟨(h.2.2.2 rfl rfl rfl rfl rfl).1, (h.2.2.2 rfl rfl rfl rfl rfl).2 sampleBooks rfl⟩⟩

/-- Requests with three criteria, evaluated: genre, minimum and maximum price in
`GET /api/search` give three clauses with `$1`, `$2`, `$3` and the three values
in this order, the prices `12.5` and `20.0` as the numbers 25/2 and 20; a
title, an author and a minimum price in `GET /api/advanced-search` likewise. -/
theorem search_three_criteria_example :
    buildSearch ⟨none, some (.str "Fantasy"), none, some (.str "12.5"), some (.str "20.0")⟩ =
      ("SELECT * FROM books WHERE 1=1 AND genre = $1 AND price >= $2 AND price <= $3",
        [.raw (some (.str "Fantasy")), .num (.finite 25 1), .num 20]) ∧
    buildAdvancedSearch
        ⟨some (.str "Ring"), some (.str "Tolkien"), none, some (.str "5"), none⟩ =
      ("SELECT * FROM books WHERE 1=1 AND title ILIKE $1 AND author ILIKE $2 AND price >= $3",
        [.text "%Ring%", .text "%Tolkien%", .num 5]) := by
  refine ⟨by decide, by decide⟩

end Bookstore
